import Mathlib

/-!
Verification development for the profile-identity and engagement-state
subsystem of a multi-profile social-content backend (Node/Mongoose).

The embedding is shallow: Mongo collections become Lean lists, Mongoose
documents become structures, each service function becomes a pure Lean
function returning an Except value, and the Mongoose pre-save middleware
of the Profile schema is inlined at every point where the source calls
document.save() or Model.create().

Modelling notes, fixed once here:
- ObjectIds are modelled as naturals; a fresh id is one above the maximum
  id present in the collection.
- On a new Mongoose document every explicitly set path counts as modified,
  so the default-demotion pre-save hook fires on the create path whenever
  the new document carries isDefault = true.  (The same semantics is what
  makes the password-hashing pre-save hook of the user schema work at
  signup.)  On an existing document a path is modified only when it is set
  to a value different from the stored one.
- Engagement counters are integers, as in the source, and are only
  decremented under a membership test.
-/

set_option maxHeartbeats 1000000

namespace AuthSvc

/-- Error taxonomy of the service layer: ApiError with an HTTP status is
thrown by the services, while schema-level validation failures surface as
plain errors from Mongoose. -/
inductive ApiError where
  | notFound (msg : String)
  | badRequest (msg : String)
  | validationError (msg : String)
deriving Repr, DecidableEq

/-! ## Engagement state machine (question.model.js / post.model.js)

Post and Question carry structurally identical engagement state and
methods; the single structure below embeds both. -/

/-- Engagement state of one content item: the four membership arrays and
their four counters (question.model.js fields likeCount, unlikeCount,
saveCount, shareCount, likedBy, dislikedBy, savedBy, sharedBy). -/
structure Question where
  likedBy : List Nat
  dislikedBy : List Nat
  savedBy : List Nat
  sharedBy : List Nat
  likeCount : Int
  unlikeCount : Int
  saveCount : Int
  shareCount : Int
deriving Repr, DecidableEq

/-- questionSchema.methods.addLike: push to likedBy and bump likeCount
unless already present; then drop the profile from dislikedBy (first
occurrence) and decrement unlikeCount when it was there. -/
def Question.addLike (q : Question) (profileId : Nat) : Question :=
  if profileId ∈ q.likedBy then q
  else
    let q1 := { q with likedBy := q.likedBy ++ [profileId], likeCount := q.likeCount + 1 }
    if profileId ∈ q1.dislikedBy then
      { q1 with dislikedBy := q1.dislikedBy.erase profileId, unlikeCount := q1.unlikeCount - 1 }
    else q1

/-- questionSchema.methods.removeLike: splice out the first occurrence and
decrement likeCount when present, otherwise leave the document alone. -/
def Question.removeLike (q : Question) (profileId : Nat) : Question :=
  if profileId ∈ q.likedBy then
    { q with likedBy := q.likedBy.erase profileId, likeCount := q.likeCount - 1 }
  else q

/-- questionSchema.methods.addDislike: symmetric to addLike with the roles
of the two arrays swapped. -/
def Question.addDislike (q : Question) (profileId : Nat) : Question :=
  if profileId ∈ q.dislikedBy then q
  else
    let q1 := { q with dislikedBy := q.dislikedBy ++ [profileId], unlikeCount := q.unlikeCount + 1 }
    if profileId ∈ q1.likedBy then
      { q1 with likedBy := q1.likedBy.erase profileId, likeCount := q1.likeCount - 1 }
    else q1

/-- questionSchema.methods.removeDislike. -/
def Question.removeDislike (q : Question) (profileId : Nat) : Question :=
  if profileId ∈ q.dislikedBy then
    { q with dislikedBy := q.dislikedBy.erase profileId, unlikeCount := q.unlikeCount - 1 }
  else q

/-- questionSchema.methods.addSave: independent toggle, no exclusivity. -/
def Question.addSave (q : Question) (profileId : Nat) : Question :=
  if profileId ∈ q.savedBy then q
  else { q with savedBy := q.savedBy ++ [profileId], saveCount := q.saveCount + 1 }

/-- questionSchema.methods.removeSave. -/
def Question.removeSave (q : Question) (profileId : Nat) : Question :=
  if profileId ∈ q.savedBy then
    { q with savedBy := q.savedBy.erase profileId, saveCount := q.saveCount - 1 }
  else q

/-- questionSchema.methods.addShare: monotonic add-only. -/
def Question.addShare (q : Question) (profileId : Nat) : Question :=
  if profileId ∈ q.sharedBy then q
  else { q with sharedBy := q.sharedBy ++ [profileId], shareCount := q.shareCount + 1 }

/-- One engagement operation together with the reacting profile. -/
inductive EngOp where
  | like (profileId : Nat)
  | unlike (profileId : Nat)
  | dislike (profileId : Nat)
  | removeDislike (profileId : Nat)
  | save (profileId : Nat)
  | unsave (profileId : Nat)
  | share (profileId : Nat)
deriving Repr, DecidableEq

/-- Dispatch of an engagement operation on an item. -/
def applyEngOp (q : Question) : EngOp → Question
  | .like p => q.addLike p
  | .unlike p => q.removeLike p
  | .dislike p => q.addDislike p
  | .removeDislike p => q.removeDislike p
  | .save p => q.addSave p
  | .unsave p => q.removeSave p
  | .share p => q.addShare p

/-- A sequence of engagement operations applied in order. -/
def applyEngOps (q : Question) (ops : List EngOp) : Question :=
  ops.foldl applyEngOp q

/-- Mutual exclusivity: no profile is in both likedBy and dislikedBy. -/
def MutExcl (q : Question) : Prop :=
  ∀ p ∈ q.likedBy, p ∉ q.dislikedBy

/-- The four membership arrays are duplicate-free, so each one represents
the set of reacting profiles and its length is that set cardinality. -/
def NodupSets (q : Question) : Prop :=
  q.likedBy.Nodup ∧ q.dislikedBy.Nodup ∧ q.savedBy.Nodup ∧ q.sharedBy.Nodup

/-- Each counter equals the cardinality of its membership set. -/
def CountsMatch (q : Question) : Prop :=
  q.likeCount = (q.likedBy.length : Int) ∧
  q.unlikeCount = (q.dislikedBy.length : Int) ∧
  q.saveCount = (q.savedBy.length : Int) ∧
  q.shareCount = (q.sharedBy.length : Int)

/-- Engagement invariant of a content item. -/
def EngInv (q : Question) : Prop :=
  MutExcl q ∧ NodupSets q ∧ CountsMatch q

instance (q : Question) : Decidable (MutExcl q) := by
  unfold MutExcl; infer_instance

instance (q : Question) : Decidable (NodupSets q) := by
  unfold NodupSets; infer_instance

instance (q : Question) : Decidable (CountsMatch q) := by
  unfold CountsMatch; infer_instance

instance (q : Question) : Decidable (EngInv q) := by
  unfold EngInv; infer_instance

/-! ## Question service (question.service.js)

The question collection is a list of id/document pairs; getQuestionById is
findById, and each engagement service reloads the document, signals
NotFound when it is absent and otherwise applies the schema method and
persists the result. -/

/-- The question collection. -/
abbrev QuestionDb := List (Nat × Question)

/-- getQuestionById: findById over the collection. -/
def getQuestionById (db : QuestionDb) (id : Nat) : Option Question :=
  (db.find? (fun e => e.1 == id)).map (fun e => e.2)

/-- Persisting document.save(): store the document under its id. -/
def saveQuestionDoc (db : QuestionDb) (id : Nat) (q : Question) : QuestionDb :=
  db.map (fun e => if e.1 == id then (e.1, q) else e)

/-- likeQuestion: NotFound when the question is missing, otherwise
addLike and save. -/
def likeQuestion (db : QuestionDb) (questionId profileId : Nat) :
    Except ApiError (QuestionDb × Question) :=
  match getQuestionById db questionId with
  | none => .error (.notFound "Question not found")
  | some q => .ok (saveQuestionDoc db questionId (q.addLike profileId), q.addLike profileId)

/-- unlikeQuestion. -/
def unlikeQuestion (db : QuestionDb) (questionId profileId : Nat) :
    Except ApiError (QuestionDb × Question) :=
  match getQuestionById db questionId with
  | none => .error (.notFound "Question not found")
  | some q => .ok (saveQuestionDoc db questionId (q.removeLike profileId), q.removeLike profileId)

/-- dislikeQuestion. -/
def dislikeQuestion (db : QuestionDb) (questionId profileId : Nat) :
    Except ApiError (QuestionDb × Question) :=
  match getQuestionById db questionId with
  | none => .error (.notFound "Question not found")
  | some q => .ok (saveQuestionDoc db questionId (q.addDislike profileId), q.addDislike profileId)

/-- removeDislikeQuestion. -/
def removeDislikeQuestion (db : QuestionDb) (questionId profileId : Nat) :
    Except ApiError (QuestionDb × Question) :=
  match getQuestionById db questionId with
  | none => .error (.notFound "Question not found")
  | some q => .ok (saveQuestionDoc db questionId (q.removeDislike profileId), q.removeDislike profileId)

/-- saveQuestion. -/
def saveQuestion (db : QuestionDb) (questionId profileId : Nat) :
    Except ApiError (QuestionDb × Question) :=
  match getQuestionById db questionId with
  | none => .error (.notFound "Question not found")
  | some q => .ok (saveQuestionDoc db questionId (q.addSave profileId), q.addSave profileId)

/-- unsaveQuestion. -/
def unsaveQuestion (db : QuestionDb) (questionId profileId : Nat) :
    Except ApiError (QuestionDb × Question) :=
  match getQuestionById db questionId with
  | none => .error (.notFound "Question not found")
  | some q => .ok (saveQuestionDoc db questionId (q.removeSave profileId), q.removeSave profileId)

/-- shareQuestion. -/
def shareQuestion (db : QuestionDb) (questionId profileId : Nat) :
    Except ApiError (QuestionDb × Question) :=
  match getQuestionById db questionId with
  | none => .error (.notFound "Question not found")
  | some q => .ok (saveQuestionDoc db questionId (q.addShare profileId), q.addShare profileId)

/-- Dispatch of one engagement request to the matching service, as the
question routes do. -/
def applyEngService (db : QuestionDb) (questionId : Nat) :
    EngOp → Except ApiError (QuestionDb × Question)
  | .like p => likeQuestion db questionId p
  | .unlike p => unlikeQuestion db questionId p
  | .dislike p => dislikeQuestion db questionId p
  | .removeDislike p => removeDislikeQuestion db questionId p
  | .save p => saveQuestion db questionId p
  | .unsave p => unsaveQuestion db questionId p
  | .share p => shareQuestion db questionId p

/-- The conditions under which the claim calls an engagement request a
no-op: the reaction is already recorded for an add, or absent for a
removal. -/
def NoOpCondition (q : Question) : EngOp → Prop
  | .like p => p ∈ q.likedBy
  | .unlike p => p ∉ q.likedBy
  | .dislike p => p ∈ q.dislikedBy
  | .removeDislike p => p ∉ q.dislikedBy
  | .save p => p ∈ q.savedBy
  | .unsave p => p ∉ q.savedBy
  | .share p => p ∈ q.sharedBy

instance (q : Question) (op : EngOp) : Decidable (NoOpCondition q op) := by
  cases op <;> (unfold NoOpCondition; infer_instance)

/-! ## Profile data model (profile.model.js)

The profile-kind and visibility enumerations live in
config/profileEnums.js, which is not part of the sources at hand; their
values are modelled from the spec (kinds PUBLIC and ANONYMOUS, statuses
PUBLIC and PRIVATE), matching every use site in the services. -/

/-- Modelled from the spec: profile kind enumeration (config/profileEnums
is missing from the sources); the services use PUBLIC and ANONYMOUS. -/
inductive ProfileType where
  | PUBLIC
  | ANONYMOUS
deriving Repr, DecidableEq

/-- Modelled from the spec: profile visibility-status enumeration
(config/profileEnums is missing from the sources); the services use
PUBLIC and PRIVATE. -/
inductive ProfileStatus where
  | PUBLIC
  | PRIVATE
deriving Repr, DecidableEq

/-- One persisted profile document.  Fields that no verified operation
reads or writes (bio, avatar, nested settings, metadata) are omitted;
they are carried verbatim by the source and never inspected. -/
structure Profile where
  id : Nat
  userId : Nat
  profileName : String
  displayName : String
  profileType : ProfileType
  status : ProfileStatus
  isActive : Bool
  isDefault : Bool
deriving Repr, DecidableEq

/-- The profile collection, in insertion (creation-time) order. -/
abbrev ProfileDb := List Profile

/-- findById over the profile collection. -/
def findProfileById (ps : ProfileDb) (profileId : Nat) : Option Profile :=
  ps.find? (fun p => p.id == profileId)

/-- profile.service.js isProfileNameTaken: findOne on profileName and
userId, excluding at most one profile id; the service passes no exclusion
on the create path, in which case the $ne clause matches every document. -/
def isProfileNameTaken (ps : ProfileDb) (profileName : String) (userId : Nat)
    (excludeProfileId : Option Nat) : Bool :=
  ps.any (fun p =>
    p.profileName == profileName && p.userId == userId &&
      (match excludeProfileId with
       | some e => p.id != e
       | none => true))

/-- The default-demotion pre-save hook body: updateMany over the same
user, excluding the saved document, setting isDefault to false. -/
def demoteOthers (ps : ProfileDb) (userId selfId : Nat) : ProfileDb :=
  ps.map (fun p =>
    if p.userId = userId ∧ p.id ≠ selfId then { p with isDefault := false } else p)

/-- Persisting document.save() of an existing profile: overwrite the
document carrying the same id. -/
def saveProfileDoc (ps : ProfileDb) (q : Profile) : ProfileDb :=
  ps.map (fun p => if p.id = q.id then q else p)

/-- findByIdAndUpdate with a $set of isDefault to true (query update,
runs no document middleware). -/
def setIsDefaultTrue (ps : ProfileDb) (profileId : Nat) : ProfileDb :=
  ps.map (fun p => if p.id = profileId then { p with isDefault := true } else p)

/-- A fresh ObjectId for an insert: one above every id in use. -/
def freshProfileId (ps : ProfileDb) : Nat :=
  ps.foldr (fun p m => max p.id m) 0 + 1

/-- The request body accepted by createProfile, after the boundary layer
has attached the authenticated userId. -/
structure CreateProfileBody where
  userId : Nat
  profileName : String
  displayName : String
  profileType : ProfileType
  status : ProfileStatus
  isActive : Bool
  isDefault : Bool
deriving Repr, DecidableEq

/-- The default flag the create path persists: the first profile of a
user is forced default, otherwise the requested flag is honored. -/
def createIsDefault (ps : ProfileDb) (body : CreateProfileBody) : Bool :=
  (ps.filter (fun p => p.userId == body.userId)).isEmpty || body.isDefault

/-- The collection after the default-demotion pre-save hook of the
create path: on a new document isDefault is an explicitly set path,
hence modified, so the hook fires exactly when the new document carries
isDefault = true. -/
def createDemoted (ps : ProfileDb) (body : CreateProfileBody) : ProfileDb :=
  if createIsDefault ps body then demoteOthers ps body.userId (freshProfileId ps) else ps

/-- The new profile document built by Profile.create. -/
def newProfileDoc (ps : ProfileDb) (body : CreateProfileBody) : Profile :=
  { id := freshProfileId ps, userId := body.userId, profileName := body.profileName,
    displayName := body.displayName, profileType := body.profileType,
    status := body.status, isActive := body.isActive, isDefault := createIsDefault ps body }

/-- profile.service.js createProfile: Conflict (400) when the name is
taken for the user; Profile.create then validates the schema
(profileName of length at least 2), runs the default-demotion hook, runs
the name-uniqueness hook, and inserts the new document. -/
def createProfile (ps : ProfileDb) (body : CreateProfileBody) :
    Except ApiError (ProfileDb × Profile) :=
  if isProfileNameTaken ps body.profileName body.userId none then
    .error (.badRequest "Profile name already exists for this user")
  else if body.profileName.length < 2 then
    .error (.validationError "Profile name must be at least 2 characters long")
  else if isProfileNameTaken (createDemoted ps body) body.profileName body.userId
      (some (freshProfileId ps)) then
    .error (.validationError "Profile name already exists for this user")
  else
    .ok (createDemoted ps body ++ [newProfileDoc ps body], newProfileDoc ps body)

/-- The patch accepted by updateProfileById; absent fields are left
untouched by Object.assign.  Patchable fields that no verified property
reads (bio, avatar, settings, metadata) are omitted. -/
structure UpdateProfileBody where
  profileName : Option String
  displayName : Option String
  isActive : Option Bool
  isDefault : Option Bool
deriving Repr, DecidableEq

/-- The service-level uniqueness guard of updateProfileById: the check is
skipped when the patch carries no profileName or an empty one (JS
truthiness). -/
def updateNameConflict (ps : ProfileDb) (body : UpdateProfileBody)
    (userId profileId : Nat) : Bool :=
  match body.profileName with
  | some n => !(n == "") && isProfileNameTaken ps n userId (some profileId)
  | none => false

/-- The document after Object.assign of the patch onto the loaded
profile. -/
def updatedProfileDoc (profile : Profile) (body : UpdateProfileBody) : Profile :=
  { profile with
    profileName := body.profileName.getD profile.profileName,
    displayName := body.displayName.getD profile.displayName,
    isActive := body.isActive.getD profile.isActive,
    isDefault := body.isDefault.getD profile.isDefault }

/-- The collection after the default-demotion pre-save hook of the
update path: the hook fires exactly when isDefault was modified to true,
that is when the assigned value is true and the stored one was false. -/
def updateDemoted (ps : ProfileDb) (profile : Profile) (profileId : Nat)
    (body : UpdateProfileBody) : ProfileDb :=
  if (updatedProfileDoc profile body).isDefault && !profile.isDefault then
    demoteOthers ps profile.userId profileId
  else ps

/-- profile.service.js updateProfileById: NotFound when missing; Conflict
when a truthy new name is taken by a sibling; Object.assign and save.
On save, schema validation runs first, then the default-demotion hook,
then the name-uniqueness hook (which fires only when profileName
changed). -/
def updateProfileById (ps : ProfileDb) (profileId : Nat) (body : UpdateProfileBody) :
    Except ApiError (ProfileDb × Profile) :=
  match findProfileById ps profileId with
  | none => .error (.notFound "Profile not found")
  | some profile =>
    if updateNameConflict ps body profile.userId profileId then
      .error (.badRequest "Profile name already exists for this user")
    else if (updatedProfileDoc profile body).profileName.length < 2 then
      .error (.validationError "Profile name must be at least 2 characters long")
    else if (updatedProfileDoc profile body).profileName != profile.profileName &&
        isProfileNameTaken (updateDemoted ps profile profileId body)
          (updatedProfileDoc profile body).profileName profile.userId (some profileId) then
      .error (.validationError "Profile name already exists for this user")
    else
      .ok (saveProfileDoc (updateDemoted ps profile profileId body)
            (updatedProfileDoc profile body),
          updatedProfileDoc profile body)

/-- profile.service.js setDefaultProfile: NotFound unless the profile
belongs to the user; then updateMany demotes every other profile of the
user and findByIdAndUpdate promotes the target. -/
def setDefaultProfile (ps : ProfileDb) (userId profileId : Nat) :
    Except ApiError (ProfileDb × Option Profile) :=
  match ps.find? (fun p => p.id == profileId && p.userId == userId) with
  | none => .error (.notFound "Profile not found")
  | some _ =>
    let ps1 := demoteOthers ps userId profileId
    let ps2 := setIsDefaultTrue ps1 profileId
    .ok (ps2, findProfileById ps2 profileId)

/-- The collection after the promotion step of the delete path: when the
deleted profile was default, the first other profile of the user (when
one exists) is promoted by assignment and save, which triggers the
default-demotion hook exactly when that profile was not already
default. -/
def deletePromoted (ps : ProfileDb) (profileId : Nat) (profile : Profile) : ProfileDb :=
  if profile.isDefault then
    match (ps.filter (fun p => p.userId == profile.userId && p.id != profileId)).head? with
    | some other =>
      saveProfileDoc (if other.isDefault then ps else demoteOthers ps other.userId other.id)
        { other with isDefault := true }
    | none => ps
  else ps

/-- profile.service.js deleteProfileById: NotFound when missing;
otherwise the promotion step runs and the document is removed. -/
def deleteProfileById (ps : ProfileDb) (profileId : Nat) :
    Except ApiError (ProfileDb × Profile) :=
  match findProfileById ps profileId with
  | none => .error (.notFound "Profile not found")
  | some profile =>
    .ok ((deletePromoted ps profileId profile).filter (fun p => p.id != profileId), profile)

/-- profile.service.js getDefaultProfile: findOne on userId and
isDefault true, absence reported as none. -/
def getDefaultProfile (ps : ProfileDb) (userId : Nat) : Option Profile :=
  ps.find? (fun p => p.userId == userId && p.isDefault)

/-- profile.controller.js getDefaultProfile: translates the absent case
into a NotFound ApiError. -/
def getDefaultProfileHandler (ps : ProfileDb) (userId : Nat) : Except ApiError Profile :=
  match getDefaultProfile ps userId with
  | none => .error (.notFound "No default profile found")
  | some p => .ok p

/-- One profile operation of the identity manager. -/
inductive ProfileOp where
  | create (body : CreateProfileBody)
  | update (profileId : Nat) (body : UpdateProfileBody)
  | setDefault (userId profileId : Nat)
  | delete (profileId : Nat)
deriving Repr, DecidableEq

/-- Effect of one operation on the collection; a service error leaves the
collection untouched (every service throws before its first write). -/
def applyProfileOp (ps : ProfileDb) : ProfileOp → ProfileDb
  | .create body =>
    match createProfile ps body with
    | .ok (ps', _) => ps'
    | .error _ => ps
  | .update profileId body =>
    match updateProfileById ps profileId body with
    | .ok (ps', _) => ps'
    | .error _ => ps
  | .setDefault userId profileId =>
    match setDefaultProfile ps userId profileId with
    | .ok (ps', _) => ps'
    | .error _ => ps
  | .delete profileId =>
    match deleteProfileById ps profileId with
    | .ok (ps', _) => ps'
    | .error _ => ps

/-- A sequence of profile operations applied in order. -/
def applyProfileOps (ps : ProfileDb) (ops : List ProfileOp) : ProfileDb :=
  ops.foldl applyProfileOp ps

/-- Number of profiles a user owns. -/
def profileCount (ps : ProfileDb) (userId : Nat) : Nat :=
  ps.countP (fun p => p.userId == userId)

/-- Number of profiles of a user flagged default. -/
def defaultCount (ps : ProfileDb) (userId : Nat) : Nat :=
  ps.countP (fun p => p.userId == userId && p.isDefault)

/-- Well-formedness of the collection: document ids are unique. -/
def IdsNodup (ps : ProfileDb) : Prop :=
  (ps.map Profile.id).Nodup

/-- The single-default invariant: every user owning at least one profile
owns exactly one default profile. -/
def DefaultInv (ps : ProfileDb) : Prop :=
  ∀ userId ∈ ps.map Profile.userId, defaultCount ps userId = 1

/-- Combined profile-collection invariant. -/
def ProfileInv (ps : ProfileDb) : Prop :=
  IdsNodup ps ∧ DefaultInv ps

instance (ps : ProfileDb) : Decidable (IdsNodup ps) := by
  unfold IdsNodup; infer_instance

instance (ps : ProfileDb) : Decidable (DefaultInv ps) := by
  unfold DefaultInv; infer_instance

instance (ps : ProfileDb) : Decidable (ProfileInv ps) := by
  unfold ProfileInv; infer_instance

/-- The update operations ruled out by the amended single-default claim:
a patch that sets isDefault to false is the one way to leave a user with
no default profile. -/
def OpKeepsDefaultFlag : ProfileOp → Prop
  | .update _ body => body.isDefault ≠ some false
  | _ => True

instance (op : ProfileOp) : Decidable (OpKeepsDefaultFlag op) := by
  cases op <;> (unfold OpKeepsDefaultFlag; infer_instance)

/-! ## Account bootstrap (user.service.js) -/

/-- One persisted user account; credential fields are outside the
verified core. -/
structure UserRec where
  id : Nat
  name : String
  username : String
  email : String
deriving Repr, DecidableEq

/-- The persistent state seen by createUser: the user collection and the
profile collection. -/
structure SysState where
  users : List UserRec
  profiles : ProfileDb
deriving Repr, DecidableEq

/-- The request body of createUser, restricted to the fields the
bootstrap reads. -/
structure CreateUserBody where
  name : String
  username : String
  email : String
deriving Repr, DecidableEq

/-- User.isEmailTaken. -/
def isEmailTaken (us : List UserRec) (email : String) : Bool :=
  us.any (fun u => u.email == email)

/-- User.isUsernameTaken. -/
def isUsernameTaken (us : List UserRec) (username : String) : Bool :=
  us.any (fun u => u.username == username)

/-- A fresh ObjectId for a user insert. -/
def freshUserId (us : List UserRec) : Nat :=
  us.foldr (fun u m => max u.id m) 0 + 1

/-- user.service.js generateAnonymousProfileName: the fixed prefix and a
6-digit random number; rand stands for the random draw, reduced into the
interval that floor(100000 + random() * 900000) produces. -/
def generateAnonymousProfileName (rand : Nat) : String :=
  "Neswa" ++ toString (100000 + rand % 900000)

/-- The request body of the public bootstrap profile: named after the
account, kind PUBLIC, status PUBLIC, marked default. -/
def pubProfileBody (s : SysState) (body : CreateUserBody) : CreateProfileBody :=
  { userId := freshUserId s.users, profileName := body.name, displayName := body.name,
    profileType := .PUBLIC, status := .PUBLIC, isActive := true, isDefault := true }

/-- The request body of the anonymous bootstrap profile: generated name,
kind ANONYMOUS, status PRIVATE, not default. -/
def anonProfileBody (s : SysState) (rand : Nat) : CreateProfileBody :=
  { userId := freshUserId s.users, profileName := generateAnonymousProfileName rand,
    displayName := "Anonymous User", profileType := .ANONYMOUS, status := .PRIVATE,
    isActive := true, isDefault := false }

/-- The new account document built by User.create. -/
def newUserDoc (s : SysState) (body : CreateUserBody) : UserRec :=
  { id := freshUserId s.users, name := body.name, username := body.username,
    email := body.email }

/-- user.service.js createUser: reject taken email or username, insert
the account, then inside one try/catch create the public default profile
and, only if that succeeded, the anonymous one; any profile-creation
error is logged and swallowed and the user is returned regardless.  The
last component counts how many profile creations were attempted. -/
def createUser (s : SysState) (body : CreateUserBody) (rand : Nat) :
    Except ApiError (SysState × UserRec × Nat) :=
  if isEmailTaken s.users body.email then
    .error (.badRequest "Email already taken")
  else if isUsernameTaken s.users body.username then
    .error (.badRequest "Username already taken")
  else
    match createProfile s.profiles (pubProfileBody s body) with
    | .error _ =>
      .ok ({ users := s.users ++ [newUserDoc s body], profiles := s.profiles },
        newUserDoc s body, 1)
    | .ok (ps1, _) =>
      match createProfile ps1 (anonProfileBody s rand) with
      | .error _ =>
        .ok ({ users := s.users ++ [newUserDoc s body], profiles := ps1 },
          newUserDoc s body, 2)
      | .ok (ps2, _) =>
        .ok ({ users := s.users ++ [newUserDoc s body], profiles := ps2 },
          newUserDoc s body, 2)

/-! ## Lemmas about the engagement state machine -/

theorem nodup_append_singleton {l : List Nat} {p : Nat} (h : l.Nodup) (hp : p ∉ l) :
    (l ++ [p]).Nodup := by
  simp [List.nodup_append, h, hp]

theorem engInv_addLike (q : Question) (p : Nat) (h : EngInv q) : EngInv (q.addLike p) := by
  obtain ⟨hex, ⟨hl, hd, hs, hsh⟩, ⟨hc1, hc2, hc3, hc4⟩⟩ := h
  unfold Question.addLike
  by_cases hmem : p ∈ q.likedBy
  · simp only [hmem, if_true]
    exact ⟨hex, ⟨hl, hd, hs, hsh⟩, ⟨hc1, hc2, hc3, hc4⟩⟩
  · by_cases hd2 : p ∈ q.dislikedBy
    · simp only [hmem, if_false, hd2, if_true]
      refine ⟨?_, ⟨nodup_append_singleton hl hmem, hd.erase p, hs, hsh⟩, ?_, ?_, hc3, hc4⟩
      · intro x hx
        rcases List.mem_append.mp hx with hx' | hx'
        · exact fun hbad => hex x hx' (List.mem_of_mem_erase hbad)
        · have : x = p := by simpa using hx'
          subst this
          exact hd.not_mem_erase
      · simp only [List.length_append, List.length_singleton]
        omega
      · have hlen := List.length_erase_of_mem hd2
        have hpos : 0 < q.dislikedBy.length := List.length_pos_of_mem hd2
        simp only [hlen]
        omega
    · simp only [hmem, if_false, hd2, if_true]
      refine ⟨?_, ⟨nodup_append_singleton hl hmem, hd, hs, hsh⟩, ?_, hc2, hc3, hc4⟩
      · intro x hx
        rcases List.mem_append.mp hx with hx' | hx'
        · exact hex x hx'
        · have : x = p := by simpa using hx'
          subst this
          exact hd2
      · simp only [List.length_append, List.length_singleton]
        omega

theorem engInv_addDislike (q : Question) (p : Nat) (h : EngInv q) : EngInv (q.addDislike p) := by
  obtain ⟨hex, ⟨hl, hd, hs, hsh⟩, ⟨hc1, hc2, hc3, hc4⟩⟩ := h
  unfold Question.addDislike
  by_cases hmem : p ∈ q.dislikedBy
  · simp only [hmem, if_true]
    exact ⟨hex, ⟨hl, hd, hs, hsh⟩, ⟨hc1, hc2, hc3, hc4⟩⟩
  · by_cases hl2 : p ∈ q.likedBy
    · simp only [hmem, if_false, hl2, if_true]
      refine ⟨?_, ⟨hl.erase p, nodup_append_singleton hd hmem, hs, hsh⟩, ?_, ?_, hc3, hc4⟩
      · intro x hx
        have hx' : x ∈ q.likedBy := List.mem_of_mem_erase hx
        have hxp : x ≠ p := ((hl.mem_erase_iff).mp hx).1
        intro hbad
        rcases List.mem_append.mp hbad with hb | hb
        · exact hex x hx' hb
        · exact hxp (by simpa using hb)
      · have hlen := List.length_erase_of_mem hl2
        have hpos : 0 < q.likedBy.length := List.length_pos_of_mem hl2
        simp only [hlen]
        omega
      · simp only [List.length_append, List.length_singleton]
        omega
    · simp only [hmem, if_false, hl2, if_true]
      refine ⟨?_, ⟨hl, nodup_append_singleton hd hmem, hs, hsh⟩, hc1, ?_, hc3, hc4⟩
      · intro x hx hbad
        rcases List.mem_append.mp hbad with hb | hb
        · exact hex x hx hb
        · have : x = p := by simpa using hb
          subst this
          exact hl2 hx
      · simp only [List.length_append, List.length_singleton]
        omega

theorem engInv_removeLike (q : Question) (p : Nat) (h : EngInv q) : EngInv (q.removeLike p) := by
  obtain ⟨hex, ⟨hl, hd, hs, hsh⟩, ⟨hc1, hc2, hc3, hc4⟩⟩ := h
  unfold Question.removeLike
  by_cases hmem : p ∈ q.likedBy
  · simp only [hmem, if_true]
    refine ⟨?_, ⟨hl.erase p, hd, hs, hsh⟩, ?_, hc2, hc3, hc4⟩
    · intro x hx
      exact hex x (List.mem_of_mem_erase hx)
    · have hlen := List.length_erase_of_mem hmem
      have hpos : 0 < q.likedBy.length := List.length_pos_of_mem hmem
      simp only [hlen]
      omega
  · simp only [hmem, if_false]
    exact ⟨hex, ⟨hl, hd, hs, hsh⟩, ⟨hc1, hc2, hc3, hc4⟩⟩

theorem engInv_removeDislike (q : Question) (p : Nat) (h : EngInv q) :
    EngInv (q.removeDislike p) := by
  obtain ⟨hex, ⟨hl, hd, hs, hsh⟩, ⟨hc1, hc2, hc3, hc4⟩⟩ := h
  unfold Question.removeDislike
  by_cases hmem : p ∈ q.dislikedBy
  · simp only [hmem, if_true]
    refine ⟨?_, ⟨hl, hd.erase p, hs, hsh⟩, hc1, ?_, hc3, hc4⟩
    · intro x hx hbad
      exact hex x hx (List.mem_of_mem_erase hbad)
    · have hlen := List.length_erase_of_mem hmem
      have hpos : 0 < q.dislikedBy.length := List.length_pos_of_mem hmem
      simp only [hlen]
      omega
  · simp only [hmem, if_false]
    exact ⟨hex, ⟨hl, hd, hs, hsh⟩, ⟨hc1, hc2, hc3, hc4⟩⟩

theorem engInv_addSave (q : Question) (p : Nat) (h : EngInv q) : EngInv (q.addSave p) := by
  obtain ⟨hex, ⟨hl, hd, hs, hsh⟩, ⟨hc1, hc2, hc3, hc4⟩⟩ := h
  unfold Question.addSave
  by_cases hmem : p ∈ q.savedBy
  · simp only [hmem, if_true]
    exact ⟨hex, ⟨hl, hd, hs, hsh⟩, ⟨hc1, hc2, hc3, hc4⟩⟩
  · simp only [hmem, if_false]
    refine ⟨hex, ⟨hl, hd, nodup_append_singleton hs hmem, hsh⟩, hc1, hc2, ?_, hc4⟩
    simp only [List.length_append, List.length_singleton]
    omega

theorem engInv_removeSave (q : Question) (p : Nat) (h : EngInv q) : EngInv (q.removeSave p) := by
  obtain ⟨hex, ⟨hl, hd, hs, hsh⟩, ⟨hc1, hc2, hc3, hc4⟩⟩ := h
  unfold Question.removeSave
  by_cases hmem : p ∈ q.savedBy
  · simp only [hmem, if_true]
    refine ⟨hex, ⟨hl, hd, hs.erase p, hsh⟩, hc1, hc2, ?_, hc4⟩
    have hlen := List.length_erase_of_mem hmem
    have hpos : 0 < q.savedBy.length := List.length_pos_of_mem hmem
    simp only [hlen]
    omega
  · simp only [hmem, if_false]
    exact ⟨hex, ⟨hl, hd, hs, hsh⟩, ⟨hc1, hc2, hc3, hc4⟩⟩

theorem engInv_addShare (q : Question) (p : Nat) (h : EngInv q) : EngInv (q.addShare p) := by
  obtain ⟨hex, ⟨hl, hd, hs, hsh⟩, ⟨hc1, hc2, hc3, hc4⟩⟩ := h
  unfold Question.addShare
  by_cases hmem : p ∈ q.sharedBy
  · simp only [hmem, if_true]
    exact ⟨hex, ⟨hl, hd, hs, hsh⟩, ⟨hc1, hc2, hc3, hc4⟩⟩
  · simp only [hmem, if_false]
    refine ⟨hex, ⟨hl, hd, hs, nodup_append_singleton hsh hmem⟩, hc1, hc2, hc3, ?_⟩
    simp only [List.length_append, List.length_singleton]
    omega

theorem engInv_applyEngOp (q : Question) (op : EngOp) (h : EngInv q) :
    EngInv (applyEngOp q op) := by
  cases op with
  | like p => exact engInv_addLike q p h
  | unlike p => exact engInv_removeLike q p h
  | dislike p => exact engInv_addDislike q p h
  | removeDislike p => exact engInv_removeDislike q p h
  | save p => exact engInv_addSave q p h
  | unsave p => exact engInv_removeSave q p h
  | share p => exact engInv_addShare q p h

theorem engInv_applyEngOps (q : Question) (ops : List EngOp) (h : EngInv q) :
    EngInv (applyEngOps q ops) := by
  induction ops generalizing q with
  | nil => exact h
  | cons op rest ih => exact ih (applyEngOp q op) (engInv_applyEngOp q op h)

theorem addLike_of_mem (q : Question) (p : Nat) (h : p ∈ q.likedBy) : q.addLike p = q := by
  unfold Question.addLike
  simp [h]

theorem removeLike_of_not_mem (q : Question) (p : Nat) (h : p ∉ q.likedBy) :
    q.removeLike p = q := by
  unfold Question.removeLike
  simp [h]

theorem addDislike_of_mem (q : Question) (p : Nat) (h : p ∈ q.dislikedBy) :
    q.addDislike p = q := by
  unfold Question.addDislike
  simp [h]

theorem removeDislike_of_not_mem (q : Question) (p : Nat) (h : p ∉ q.dislikedBy) :
    q.removeDislike p = q := by
  unfold Question.removeDislike
  simp [h]

theorem addSave_of_mem (q : Question) (p : Nat) (h : p ∈ q.savedBy) : q.addSave p = q := by
  unfold Question.addSave
  simp [h]

theorem removeSave_of_not_mem (q : Question) (p : Nat) (h : p ∉ q.savedBy) :
    q.removeSave p = q := by
  unfold Question.removeSave
  simp [h]

theorem addShare_of_mem (q : Question) (p : Nat) (h : p ∈ q.sharedBy) : q.addShare p = q := by
  unfold Question.addShare
  simp [h]

theorem mem_likedBy_addLike (q : Question) (p : Nat) : p ∈ (q.addLike p).likedBy := by
  unfold Question.addLike
  by_cases h : p ∈ q.likedBy
  · simp [h]
  · by_cases h2 : p ∈ q.dislikedBy <;> simp [h, h2]

theorem mem_savedBy_addSave (q : Question) (p : Nat) : p ∈ (q.addSave p).savedBy := by
  unfold Question.addSave
  by_cases h : p ∈ q.savedBy
  · simp [h]
  · simp [h]

theorem nodup_map_unique {α β : Type} {f : α → β} {l : List α} (h : (l.map f).Nodup)
    {a b : α} (ha : a ∈ l) (hb : b ∈ l) (hf : f a = f b) : a = b := by
  induction l with
  | nil => cases ha
  | cons x xs ih =>
    simp only [List.map_cons, List.nodup_cons] at h
    rcases List.mem_cons.mp ha with rfl | ha'
    · rcases List.mem_cons.mp hb with rfl | hb'
      · rfl
      · exact absurd (hf ▸ List.mem_map_of_mem f hb') h.1
    · rcases List.mem_cons.mp hb with rfl | hb'
      · exact absurd (hf ▸ List.mem_map_of_mem f ha') h.1
      · exact ih h.2 ha' hb'

theorem getQuestionById_entry {db : QuestionDb} {qid : Nat} {q : Question}
    (h : getQuestionById db qid = some q) : (qid, q) ∈ db := by
  unfold getQuestionById at h
  cases hf : db.find? (fun e => e.1 == qid) with
  | none => simp [hf] at h
  | some e =>
    have hmem := List.mem_of_find?_eq_some hf
    have hkey : e.1 = qid := by
      have := List.find?_some hf
      simpa using this
    have hval : e.2 = q := by
      rw [hf] at h
      simpa using h
    have : e = (qid, q) := by
      obtain ⟨e1, e2⟩ := e
      simp only at hkey hval
      rw [hkey, hval]
    rw [this] at hmem
    exact hmem

theorem saveQuestionDoc_self {db : QuestionDb} {qid : Nat} {q : Question}
    (hkeys : (db.map Prod.fst).Nodup) (h : getQuestionById db qid = some q) :
    saveQuestionDoc db qid q = db := by
  have hentry : (qid, q) ∈ db := getQuestionById_entry h
  unfold saveQuestionDoc
  have : ∀ e ∈ db, (if e.1 == qid then (e.1, q) else e) = e := by
    intro e he
    by_cases hk : e.1 = qid
    · have : e = (qid, q) := nodup_map_unique hkeys he hentry (by simpa using hk)
      simp [this]
    · simp [hk]
  calc db.map (fun e => if e.1 == qid then (e.1, q) else e) = db.map id :=
        List.map_congr_left this
    _ = db := List.map_id db

/-- C2: for every content item, after any sequence of the engagement
operations starting from a state satisfying the invariant, every profile
appears in at most one of likedBy and dislikedBy, and each counter equals
the cardinality of its membership set. -/
theorem engagement_invariant_preserved (q : Question) (ops : List EngOp) (h : EngInv q) :
    MutExcl (applyEngOps q ops) ∧ NodupSets (applyEngOps q ops) ∧
      CountsMatch (applyEngOps q ops) :=
  engInv_applyEngOps q ops h

/-- Witness for C2 at a concrete item and operation sequence. -/
theorem engagement_invariant_preserved_witness :
    MutExcl (applyEngOps
        { likedBy := [7], dislikedBy := [3], savedBy := [], sharedBy := [7],
          likeCount := 1, unlikeCount := 1, saveCount := 0, shareCount := 1 }
        [.like 3, .dislike 7, .save 3, .share 3, .unsave 3, .unlike 3]) ∧
      NodupSets (applyEngOps
        { likedBy := [7], dislikedBy := [3], savedBy := [], sharedBy := [7],
          likeCount := 1, unlikeCount := 1, saveCount := 0, shareCount := 1 }
        [.like 3, .dislike 7, .save 3, .share 3, .unsave 3, .unlike 3]) ∧
      CountsMatch (applyEngOps
        { likedBy := [7], dislikedBy := [3], savedBy := [], sharedBy := [7],
          likeCount := 1, unlikeCount := 1, saveCount := 0, shareCount := 1 }
        [.like 3, .dislike 7, .save 3, .share 3, .unsave 3, .unlike 3]) :=
  engagement_invariant_preserved
    { likedBy := [7], dislikedBy := [3], savedBy := [], sharedBy := [7],
      likeCount := 1, unlikeCount := 1, saveCount := 0, shareCount := 1 }
    [.like 3, .dislike 7, .save 3, .share 3, .unsave 3, .unlike 3] (by decide)

/-- C9: applying the like operation twice with the same item and profile
yields the same engagement state as applying it once, and likewise for
the save operation. -/
theorem like_save_idempotent (q : Question) (p : Nat) :
    (q.addLike p).addLike p = q.addLike p ∧ (q.addSave p).addSave p = q.addSave p :=
  ⟨addLike_of_mem _ p (mem_likedBy_addLike q p),
   addSave_of_mem _ p (mem_savedBy_addSave q p)⟩

/-- C10: duplicate-freedom of the four membership arrays is preserved by
every sequence of engagement operations; each add operation inserts the
profile only when it is not yet a member. -/
theorem membership_arrays_nodup_preserved (q : Question) (ops : List EngOp)
    (h : NodupSets q) : NodupSets (applyEngOps q ops) := by
  induction ops generalizing q with
  | nil => exact h
  | cons op rest ih =>
    refine ih (applyEngOp q op) ?_
    obtain ⟨hl, hd, hs, hsh⟩ := h
    cases op with
    | like p =>
      show NodupSets (q.addLike p)
      unfold Question.addLike
      by_cases hmem : p ∈ q.likedBy
      · simpa [hmem] using ⟨hl, hd, hs, hsh⟩
      · by_cases hd2 : p ∈ q.dislikedBy
        · simp only [hmem, if_false, hd2, if_true]
          exact ⟨nodup_append_singleton hl hmem, hd.erase p, hs, hsh⟩
        · simp only [hmem, if_false, hd2, if_true]
          exact ⟨nodup_append_singleton hl hmem, hd, hs, hsh⟩
    | unlike p =>
      show NodupSets (q.removeLike p)
      unfold Question.removeLike
      by_cases hmem : p ∈ q.likedBy <;> simp only [hmem, if_true, if_false]
      · exact ⟨hl.erase p, hd, hs, hsh⟩
      · exact ⟨hl, hd, hs, hsh⟩
    | dislike p =>
      show NodupSets (q.addDislike p)
      unfold Question.addDislike
      by_cases hmem : p ∈ q.dislikedBy
      · simpa [hmem] using ⟨hl, hd, hs, hsh⟩
      · by_cases hl2 : p ∈ q.likedBy
        · simp only [hmem, if_false, hl2, if_true]
          exact ⟨hl.erase p, nodup_append_singleton hd hmem, hs, hsh⟩
        · simp only [hmem, if_false, hl2, if_true]
          exact ⟨hl, nodup_append_singleton hd hmem, hs, hsh⟩
    | removeDislike p =>
      show NodupSets (q.removeDislike p)
      unfold Question.removeDislike
      by_cases hmem : p ∈ q.dislikedBy <;> simp only [hmem, if_true, if_false]
      · exact ⟨hl, hd.erase p, hs, hsh⟩
      · exact ⟨hl, hd, hs, hsh⟩
    | save p =>
      show NodupSets (q.addSave p)
      unfold Question.addSave
      by_cases hmem : p ∈ q.savedBy <;> simp only [hmem, if_true, if_false]
      · exact ⟨hl, hd, hs, hsh⟩
      · exact ⟨hl, hd, nodup_append_singleton hs hmem, hsh⟩
    | unsave p =>
      show NodupSets (q.removeSave p)
      unfold Question.removeSave
      by_cases hmem : p ∈ q.savedBy <;> simp only [hmem, if_true, if_false]
      · exact ⟨hl, hd, hs.erase p, hsh⟩
      · exact ⟨hl, hd, hs, hsh⟩
    | share p =>
      show NodupSets (q.addShare p)
      unfold Question.addShare
      by_cases hmem : p ∈ q.sharedBy <;> simp only [hmem, if_true, if_false]
      · exact ⟨hl, hd, hs, hsh⟩
      · exact ⟨hl, hd, hs, nodup_append_singleton hsh hmem⟩

/-- Witness for C10 at a concrete item and operation sequence. -/
theorem membership_arrays_nodup_preserved_witness :
    NodupSets (applyEngOps
      { likedBy := [1, 2], dislikedBy := [3], savedBy := [1], sharedBy := [],
        likeCount := 2, unlikeCount := 1, saveCount := 1, shareCount := 0 }
      [.like 1, .like 3, .save 1, .share 2, .dislike 2, .unsave 1]) :=
  membership_arrays_nodup_preserved
    { likedBy := [1, 2], dislikedBy := [3], savedBy := [1], sharedBy := [],
      likeCount := 2, unlikeCount := 1, saveCount := 1, shareCount := 0 }
    [.like 1, .like 3, .save 1, .share 2, .dislike 2, .unsave 1] (by decide)

/-- C6: every engagement service signals NotFound exactly when the
content item is missing, NotFound is its only failure mode, and on an
existing item a repeated reaction or a removal of an absent reaction
succeeds with the collection and the document unchanged. -/
theorem engagement_error_handling (db : QuestionDb) (questionId : Nat) (op : EngOp)
    (hkeys : (db.map Prod.fst).Nodup) :
    (applyEngService db questionId op = .error (.notFound "Question not found") ↔
      getQuestionById db questionId = none) ∧
    (∀ e, applyEngService db questionId op = .error e → e = .notFound "Question not found") ∧
    (∀ q, getQuestionById db questionId = some q → NoOpCondition q op →
      applyEngService db questionId op = .ok (db, q)) := by
  cases hq : getQuestionById db questionId with
  | none =>
    refine ⟨?_, ?_, ?_⟩
    · cases op <;>
        simp [applyEngService, likeQuestion, unlikeQuestion, dislikeQuestion,
          removeDislikeQuestion, saveQuestion, unsaveQuestion, shareQuestion, hq]
    · intro e he
      cases op <;>
        (simp only [applyEngService, likeQuestion, unlikeQuestion, dislikeQuestion,
          removeDislikeQuestion, saveQuestion, unsaveQuestion, shareQuestion, hq] at he;
         exact (Except.error.inj he).symm)
    · intro q h
      cases h
  | some q0 =>
    refine ⟨?_, ?_, ?_⟩
    · cases op <;>
        simp [applyEngService, likeQuestion, unlikeQuestion, dislikeQuestion,
          removeDislikeQuestion, saveQuestion, unsaveQuestion, shareQuestion, hq]
    · intro e he
      cases op <;>
        simp [applyEngService, likeQuestion, unlikeQuestion, dislikeQuestion,
          removeDislikeQuestion, saveQuestion, unsaveQuestion, shareQuestion, hq] at he
    · intro q h hc
      injection h with h
      subst h
      cases op with
      | like p =>
        have hne : q0.addLike p = q0 := addLike_of_mem q0 p hc
        simp only [applyEngService, likeQuestion, hq, hne, saveQuestionDoc_self hkeys hq]
      | unlike p =>
        have hne : q0.removeLike p = q0 := removeLike_of_not_mem q0 p hc
        simp only [applyEngService, unlikeQuestion, hq, hne, saveQuestionDoc_self hkeys hq]
      | dislike p =>
        have hne : q0.addDislike p = q0 := addDislike_of_mem q0 p hc
        simp only [applyEngService, dislikeQuestion, hq, hne, saveQuestionDoc_self hkeys hq]
      | removeDislike p =>
        have hne : q0.removeDislike p = q0 := removeDislike_of_not_mem q0 p hc
        simp only [applyEngService, removeDislikeQuestion, hq, hne,
          saveQuestionDoc_self hkeys hq]
      | save p =>
        have hne : q0.addSave p = q0 := addSave_of_mem q0 p hc
        simp only [applyEngService, saveQuestion, hq, hne, saveQuestionDoc_self hkeys hq]
      | unsave p =>
        have hne : q0.removeSave p = q0 := removeSave_of_not_mem q0 p hc
        simp only [applyEngService, unsaveQuestion, hq, hne, saveQuestionDoc_self hkeys hq]
      | share p =>
        have hne : q0.addShare p = q0 := addShare_of_mem q0 p hc
        simp only [applyEngService, shareQuestion, hq, hne, saveQuestionDoc_self hkeys hq]

/-- Witness for C6: a one-question collection, exercising the missing-id
NotFound case and a no-op double reaction. -/
theorem engagement_error_handling_witness :
    (applyEngService [(5,
        { likedBy := [1], dislikedBy := [2], savedBy := [3], sharedBy := [4],
          likeCount := 1, unlikeCount := 1, saveCount := 1, shareCount := 1 })] 9 (.like 1) =
      .error (.notFound "Question not found")) ∧
    (applyEngService [(5,
        { likedBy := [1], dislikedBy := [2], savedBy := [3], sharedBy := [4],
          likeCount := 1, unlikeCount := 1, saveCount := 1, shareCount := 1 })] 5 (.like 1) =
      .ok ([(5,
        { likedBy := [1], dislikedBy := [2], savedBy := [3], sharedBy := [4],
          likeCount := 1, unlikeCount := 1, saveCount := 1, shareCount := 1 })],
        { likedBy := [1], dislikedBy := [2], savedBy := [3], sharedBy := [4],
          likeCount := 1, unlikeCount := 1, saveCount := 1, shareCount := 1 })) ∧
    (applyEngService [(5,
        { likedBy := [1], dislikedBy := [2], savedBy := [3], sharedBy := [4],
          likeCount := 1, unlikeCount := 1, saveCount := 1, shareCount := 1 })] 5 (.unsave 9) =
      .ok ([(5,
        { likedBy := [1], dislikedBy := [2], savedBy := [3], sharedBy := [4],
          likeCount := 1, unlikeCount := 1, saveCount := 1, shareCount := 1 })],
        { likedBy := [1], dislikedBy := [2], savedBy := [3], sharedBy := [4],
          likeCount := 1, unlikeCount := 1, saveCount := 1, shareCount := 1 })) :=
  ⟨(engagement_error_handling
      [(5, { likedBy := [1], dislikedBy := [2], savedBy := [3], sharedBy := [4],
             likeCount := 1, unlikeCount := 1, saveCount := 1, shareCount := 1 })] 9
      (.like 1) (by decide)).1.mpr (by decide),
   (engagement_error_handling
      [(5, { likedBy := [1], dislikedBy := [2], savedBy := [3], sharedBy := [4],
             likeCount := 1, unlikeCount := 1, saveCount := 1, shareCount := 1 })] 5
      (.like 1) (by decide)).2.2 _ (by decide) (by decide),
   (engagement_error_handling
      [(5, { likedBy := [1], dislikedBy := [2], savedBy := [3], sharedBy := [4],
             likeCount := 1, unlikeCount := 1, saveCount := 1, shareCount := 1 })] 5
      (.unsave 9) (by decide)).2.2 _ (by decide) (by decide)⟩

/-! ## Lemmas about the profile collection -/

theorem id_le_fold (ps : ProfileDb) {p : Profile} (hp : p ∈ ps) :
    p.id ≤ ps.foldr (fun r m => max r.id m) 0 := by
  induction ps with
  | nil => cases hp
  | cons x xs ih =>
    rcases List.mem_cons.mp hp with rfl | hp'
    · exact le_max_left _ _
    · exact le_trans (ih hp') (le_max_right _ _)

theorem id_lt_freshProfileId (ps : ProfileDb) {p : Profile} (hp : p ∈ ps) :
    p.id < freshProfileId ps := by
  unfold freshProfileId
  exact Nat.lt_succ_of_le (id_le_fold ps hp)

theorem demoteOthers_map_id (ps : ProfileDb) (u s : Nat) :
    (demoteOthers ps u s).map Profile.id = ps.map Profile.id := by
  unfold demoteOthers
  rw [List.map_map]
  apply List.map_congr_left
  intro p _
  simp only [Function.comp_apply]
  split <;> rfl

theorem demoteOthers_map_userId (ps : ProfileDb) (u s : Nat) :
    (demoteOthers ps u s).map Profile.userId = ps.map Profile.userId := by
  unfold demoteOthers
  rw [List.map_map]
  apply List.map_congr_left
  intro p _
  simp only [Function.comp_apply]
  split <;> rfl

theorem setIsDefaultTrue_map_id (ps : ProfileDb) (s : Nat) :
    (setIsDefaultTrue ps s).map Profile.id = ps.map Profile.id := by
  unfold setIsDefaultTrue
  rw [List.map_map]
  apply List.map_congr_left
  intro p _
  simp only [Function.comp_apply]
  split <;> rfl

theorem setIsDefaultTrue_map_userId (ps : ProfileDb) (s : Nat) :
    (setIsDefaultTrue ps s).map Profile.userId = ps.map Profile.userId := by
  unfold setIsDefaultTrue
  rw [List.map_map]
  apply List.map_congr_left
  intro p _
  simp only [Function.comp_apply]
  split <;> rfl

theorem saveProfileDoc_map_id (ps : ProfileDb) (q : Profile) :
    (saveProfileDoc ps q).map Profile.id = ps.map Profile.id := by
  unfold saveProfileDoc
  rw [List.map_map]
  apply List.map_congr_left
  intro p _
  simp only [Function.comp_apply]
  split
  · next h => exact h.symm
  · rfl

theorem saveProfileDoc_map_userId (ps : ProfileDb) (q : Profile)
    (h : ∀ p ∈ ps, p.id = q.id → p.userId = q.userId) :
    (saveProfileDoc ps q).map Profile.userId = ps.map Profile.userId := by
  unfold saveProfileDoc
  rw [List.map_map]
  apply List.map_congr_left
  intro p hp
  simp only [Function.comp_apply]
  split
  · next hid => exact (h p hp hid).symm
  · rfl

theorem countP_demoteOthers_other (ps : ProfileDb) (u s u' : Nat) (hne : u' ≠ u) :
    defaultCount (demoteOthers ps u s) u' = defaultCount ps u' := by
  unfold defaultCount demoteOthers
  rw [List.countP_map]
  apply List.countP_congr
  intro p _
  simp only [Function.comp_apply]
  split
  · next hc =>
    have hu' : (p.userId == u') = false := by
      simp [hc.1, Ne.symm hne]
    simp [hu']
  · exact Iff.rfl

theorem profileCount_demoteOthers (ps : ProfileDb) (u s u' : Nat) :
    profileCount (demoteOthers ps u s) u' = profileCount ps u' := by
  unfold profileCount demoteOthers
  rw [List.countP_map]
  apply List.countP_congr
  intro p _
  simp only [Function.comp_apply]
  split <;> exact Iff.rfl

theorem profileCount_setIsDefaultTrue (ps : ProfileDb) (s u' : Nat) :
    profileCount (setIsDefaultTrue ps s) u' = profileCount ps u' := by
  unfold profileCount setIsDefaultTrue
  rw [List.countP_map]
  apply List.countP_congr
  intro p _
  simp only [Function.comp_apply]
  split <;> exact Iff.rfl

theorem profileCount_saveProfileDoc (ps : ProfileDb) (q : Profile) (u' : Nat)
    (h : ∀ p ∈ ps, p.id = q.id → p.userId = q.userId) :
    profileCount (saveProfileDoc ps q) u' = profileCount ps u' := by
  unfold profileCount saveProfileDoc
  rw [List.countP_map]
  apply List.countP_congr
  intro p hp
  simp only [Function.comp_apply]
  split
  · next hid => rw [h p hp hid]
  · exact Iff.rfl

theorem countP_saveProfileDoc_congr (ps : ProfileDb) (q : Profile) (pred : Profile → Bool)
    (h : ∀ p ∈ ps, p.id = q.id → pred q = pred p) :
    (saveProfileDoc ps q).countP pred = ps.countP pred := by
  unfold saveProfileDoc
  rw [List.countP_map]
  apply List.countP_congr
  intro p hp
  simp only [Function.comp_apply]
  split
  · next hid => rw [h p hp hid]
  · exact Iff.rfl

theorem countP_id_eq_one {ps : ProfileDb} {p0 : Profile} (hnd : IdsNodup ps) (hp : p0 ∈ ps) :
    ps.countP (fun p => p.id == p0.id) = 1 := by
  unfold IdsNodup at hnd
  induction ps with
  | nil => cases hp
  | cons x xs ih =>
    simp only [List.map_cons, List.nodup_cons] at hnd
    rcases List.mem_cons.mp hp with rfl | hp'
    · rw [List.countP_cons]
      have h0 : xs.countP (fun p => p.id == p0.id) = 0 := by
        rw [List.countP_eq_zero]
        intro a ha hbad
        exact hnd.1 ((eq_of_beq hbad) ▸ List.mem_map_of_mem Profile.id ha)
      simp [h0]
    · have hxne : (x.id == p0.id) = false := by
        by_contra hbad
        have : x.id = p0.id := eq_of_beq (Bool.of_not_eq_false hbad)
        exact hnd.1 (this ▸ List.mem_map_of_mem Profile.id hp')
      rw [List.countP_cons, hxne]
      simpa using ih hnd.2 hp'

theorem two_le_countP {ps : ProfileDb} {a b : Profile} {pred : Profile → Bool}
    (ha : a ∈ ps) (hb : b ∈ ps) (hne : a ≠ b) (hpa : pred a = true) (hpb : pred b = true) :
    2 ≤ ps.countP pred := by
  induction ps with
  | nil => cases ha
  | cons x xs ih =>
    rcases List.mem_cons.mp ha with rfl | ha'
    · have hb' : b ∈ xs := by
        rcases List.mem_cons.mp hb with rfl | h
        · exact absurd rfl hne
        · exact h
      have hpos : 0 < xs.countP pred := List.countP_pos_iff.mpr ⟨b, hb', hpb⟩
      rw [List.countP_cons, hpa]
      simp only [if_true]
      omega
    · rcases List.mem_cons.mp hb with rfl | hb'
      · have hpos : 0 < xs.countP pred := List.countP_pos_iff.mpr ⟨a, ha', hpa⟩
        rw [List.countP_cons, hpb]
        simp only [if_true]
        omega
      · have := ih ha' hb'
        rw [List.countP_cons]
        omega

theorem isProfileNameTaken_demoteOthers (ps : ProfileDb) (u s : Nat) (n : String)
    (u' : Nat) (e : Option Nat) :
    isProfileNameTaken (demoteOthers ps u s) n u' e = isProfileNameTaken ps n u' e := by
  unfold isProfileNameTaken demoteOthers
  rw [List.any_map]
  congr 1
  funext p
  simp only [Function.comp_apply]
  split <;> rfl

theorem createProfile_ok_spec {ps : ProfileDb} {body : CreateProfileBody}
    {ps' : ProfileDb} {newP : Profile}
    (hok : createProfile ps body = .ok (ps', newP)) :
    isProfileNameTaken ps body.profileName body.userId none = false ∧
    2 ≤ body.profileName.length ∧
    newP = newProfileDoc ps body ∧
    ps' = createDemoted ps body ++ [newProfileDoc ps body] := by
  unfold createProfile at hok
  split at hok
  · cases hok
  · split at hok
    · cases hok
    · split at hok
      · cases hok
      · next h1 h2 _ =>
        simp only [Except.ok.injEq, Prod.mk.injEq] at hok
        refine ⟨Bool.of_not_eq_true h1, by omega, hok.2.symm, hok.1.symm⟩

theorem updateProfileById_ok_spec {ps : ProfileDb} {profileId : Nat}
    {body : UpdateProfileBody} {ps' : ProfileDb} {p' : Profile}
    (hok : updateProfileById ps profileId body = .ok (ps', p')) :
    ∃ profile, findProfileById ps profileId = some profile ∧
      p' = updatedProfileDoc profile body ∧
      ps' = saveProfileDoc (updateDemoted ps profile profileId body)
        (updatedProfileDoc profile body) := by
  unfold updateProfileById at hok
  cases hfind : findProfileById ps profileId with
  | none => rw [hfind] at hok; cases hok
  | some profile =>
    rw [hfind] at hok
    simp only at hok
    refine ⟨profile, rfl, ?_⟩
    split at hok
    · cases hok
    · split at hok
      · cases hok
      · split at hok
        · cases hok
        · simp only [Except.ok.injEq, Prod.mk.injEq] at hok
          exact ⟨hok.2.symm, hok.1.symm⟩

theorem setDefaultProfile_ok_spec {ps : ProfileDb} {userId profileId : Nat}
    {ps' : ProfileDb} {r : Option Profile}
    (hok : setDefaultProfile ps userId profileId = .ok (ps', r)) :
    (∃ p0, ps.find? (fun p => p.id == profileId && p.userId == userId) = some p0) ∧
    ps' = setIsDefaultTrue (demoteOthers ps userId profileId) profileId := by
  unfold setDefaultProfile at hok
  cases hfind : ps.find? (fun p => p.id == profileId && p.userId == userId) with
  | none => rw [hfind] at hok; cases hok
  | some p0 =>
    rw [hfind] at hok
    simp only [Except.ok.injEq, Prod.mk.injEq] at hok
    exact ⟨⟨p0, rfl⟩, hok.1.symm⟩

theorem deleteProfileById_ok_spec {ps : ProfileDb} {profileId : Nat}
    {ps' : ProfileDb} {prof : Profile}
    (hok : deleteProfileById ps profileId = .ok (ps', prof)) :
    findProfileById ps profileId = some prof ∧
    ps' = (deletePromoted ps profileId prof).filter (fun p => p.id != profileId) := by
  unfold deleteProfileById at hok
  cases hfind : findProfileById ps profileId with
  | none => rw [hfind] at hok; cases hok
  | some profile =>
    rw [hfind] at hok
    simp only [Except.ok.injEq, Prod.mk.injEq] at hok
    obtain ⟨h1, h2⟩ := hok
    subst h2
    exact ⟨rfl, h1.symm⟩

theorem findProfileById_some {ps : ProfileDb} {pid : Nat} {prof : Profile}
    (h : findProfileById ps pid = some prof) : prof ∈ ps ∧ prof.id = pid := by
  unfold findProfileById at h
  exact ⟨List.mem_of_find?_eq_some h, by simpa using List.find?_some h⟩

theorem createDemoted_map_userId (ps : ProfileDb) (body : CreateProfileBody) :
    (createDemoted ps body).map Profile.userId = ps.map Profile.userId := by
  unfold createDemoted
  split
  · exact demoteOthers_map_userId ps body.userId (freshProfileId ps)
  · rfl

theorem createDemoted_map_id (ps : ProfileDb) (body : CreateProfileBody) :
    (createDemoted ps body).map Profile.id = ps.map Profile.id := by
  unfold createDemoted
  split
  · exact demoteOthers_map_id ps body.userId (freshProfileId ps)
  · rfl

theorem defaultCount_demoteOthers_self (ps : ProfileDb) (u s : Nat) :
    defaultCount (demoteOthers ps u s) u =
      ps.countP (fun p => p.id == s && (p.userId == u && p.isDefault)) := by
  unfold defaultCount demoteOthers
  rw [List.countP_map]
  apply List.countP_congr
  intro p _
  simp only [Function.comp_apply]
  split
  · next hc =>
    have : (p.id == s) = false := by simp [hc.2]
    simp [this]
  · next hc =>
    by_cases hu : p.userId = u
    · have his : p.id = s := by
        by_contra hbad
        exact hc ⟨hu, hbad⟩
      simp [hu, his]
    · simp [hu]

theorem countP_id_fresh_zero (ps : ProfileDb) (pred : Profile → Bool) :
    ps.countP (fun p => p.id == freshProfileId ps && pred p) = 0 := by
  rw [List.countP_eq_zero]
  intro p hp hbad
  have : p.id = freshProfileId ps := by
    have := (Bool.and_eq_true _ _).mp hbad
    exact eq_of_beq this.1
  exact absurd this (Nat.ne_of_lt (id_lt_freshProfileId ps hp))

theorem mem_userId_of_profileCount_pos {ps : ProfileDb} {u : Nat}
    (h : 0 < profileCount ps u) : u ∈ ps.map Profile.userId := by
  unfold profileCount at h
  obtain ⟨p, hp, hpred⟩ := List.countP_pos_iff.mp h
  exact List.mem_map.mpr ⟨p, hp, eq_of_beq hpred⟩

theorem profileCount_pos_of_mem_userId {ps : ProfileDb} {u : Nat}
    (h : u ∈ ps.map Profile.userId) : 0 < profileCount ps u := by
  obtain ⟨p, hp, hpu⟩ := List.mem_map.mp h
  exact List.countP_pos_iff.mpr ⟨p, hp, by simp [hpu]⟩

theorem profileInv_createProfile {ps : ProfileDb} {body : CreateProfileBody}
    {ps' : ProfileDb} {newP : Profile}
    (hok : createProfile ps body = .ok (ps', newP)) (h : ProfileInv ps) : ProfileInv ps' := by
  obtain ⟨hids, hdef⟩ := h
  obtain ⟨-, -, hnewP, hps'⟩ := createProfile_ok_spec hok
  subst hnewP
  subst hps'
  constructor
  · unfold IdsNodup
    rw [List.map_append, createDemoted_map_id]
    have hfresh : freshProfileId ps ∉ ps.map Profile.id := by
      intro hbad
      obtain ⟨p, hp, hpid⟩ := List.mem_map.mp hbad
      exact absurd hpid (Nat.ne_of_lt (id_lt_freshProfileId ps hp))
    simp only [newProfileDoc, List.map_cons, List.map_nil]
    rw [List.nodup_append]
    refine ⟨hids, List.nodup_singleton _, ?_⟩
    intro a ha hmem
    have : a = freshProfileId ps := by simpa using hmem
    subst this
    exact hfresh ha
  · intro uid huid
    unfold defaultCount
    rw [List.countP_append]
    by_cases huser : uid = body.userId
    · subst huser
      by_cases hd : createIsDefault ps body = true
      · have hdemote : createDemoted ps body = demoteOthers ps body.userId (freshProfileId ps) := by
          unfold createDemoted
          rw [if_pos hd]
        rw [hdemote]
        have h0 : defaultCount (demoteOthers ps body.userId (freshProfileId ps)) body.userId = 0 := by
          rw [defaultCount_demoteOthers_self]
          exact countP_id_fresh_zero ps _
        unfold defaultCount at h0
        rw [h0]
        simp [newProfileDoc, hd]
      · have hd' : createIsDefault ps body = false := Bool.of_not_eq_true hd
        have hdemote : createDemoted ps body = ps := by
          unfold createDemoted
          rw [if_neg hd]
        rw [hdemote]
        have hsplit : (ps.filter (fun p => p.userId == body.userId)).isEmpty = false ∧
            body.isDefault = false := by
          unfold createIsDefault at hd'
          exact Bool.or_eq_false_iff.mp hd'
        have hmem : body.userId ∈ ps.map Profile.userId := by
          have hne : ps.filter (fun p => p.userId == body.userId) ≠ [] := by
            intro hnil
            rw [hnil] at hsplit
            simp at hsplit
          obtain ⟨p, hp⟩ := List.exists_mem_of_ne_nil _ hne
          have hmf := List.mem_filter.mp hp
          exact List.mem_map.mpr ⟨p, hmf.1, eq_of_beq hmf.2⟩
        have h1 := hdef body.userId hmem
        unfold defaultCount at h1
        rw [h1]
        simp [newProfileDoc, hd']
    · have hcontrib :
          (List.countP (fun p => p.userId == uid && p.isDefault) [newProfileDoc ps body]) = 0 := by
        simp [newProfileDoc, Ne.symm huser]
      rw [hcontrib]
      have hmemuid : uid ∈ ps.map Profile.userId := by
        rw [List.map_append, createDemoted_map_userId] at huid
        rcases List.mem_append.mp huid with h' | h'
        · exact h'
        · simp [newProfileDoc] at h'
          exact absurd h' huser
      have h1 := hdef uid hmemuid
      by_cases hd : createIsDefault ps body = true
      · have hdemote : createDemoted ps body = demoteOthers ps body.userId (freshProfileId ps) := by
          unfold createDemoted
          rw [if_pos hd]
        rw [hdemote]
        have := countP_demoteOthers_other ps body.userId (freshProfileId ps) uid huser
        unfold defaultCount at this h1
        omega
      · have hdemote : createDemoted ps body = ps := by
          unfold createDemoted
          rw [if_neg hd]
        rw [hdemote]
        unfold defaultCount at h1
        omega

theorem defaultCount_setTrueDemote_self (ps : ProfileDb) (u s : Nat)
    (hus : ∀ p ∈ ps, p.id = s → p.userId = u) :
    defaultCount (setIsDefaultTrue (demoteOthers ps u s) s) u =
      ps.countP (fun p => p.id == s) := by
  unfold defaultCount setIsDefaultTrue demoteOthers
  rw [List.map_map, List.countP_map]
  apply List.countP_congr
  intro p hp
  simp only [Function.comp_apply]
  by_cases his : p.id = s
  · have hu := hus p hp his
    simp [his, hu]
  · by_cases hu : p.userId = u
    · simp [his, hu]
    · simp [his, hu]

theorem defaultCount_setTrueDemote_other (ps : ProfileDb) (u s u' : Nat)
    (hus : ∀ p ∈ ps, p.id = s → p.userId = u) (hne : u' ≠ u) :
    defaultCount (setIsDefaultTrue (demoteOthers ps u s) s) u' = defaultCount ps u' := by
  unfold defaultCount setIsDefaultTrue demoteOthers
  rw [List.map_map, List.countP_map]
  apply List.countP_congr
  intro p hp
  simp only [Function.comp_apply]
  by_cases his : p.id = s
  · have hu := hus p hp his
    simp [his, hu, Ne.symm hne]
  · by_cases hu : p.userId = u
    · simp [his, hu, Ne.symm hne]
    · simp [his, hu]

theorem defaultCount_promote_self (ps : ProfileDb) (u s : Nat) (q : Profile)
    (_hus : ∀ p ∈ ps, p.id = s → p.userId = u)
    (hqid : q.id = s) (hqu : q.userId = u) (hqd : q.isDefault = true) :
    defaultCount (saveProfileDoc (demoteOthers ps u s) q) u =
      ps.countP (fun p => p.id == s) := by
  unfold defaultCount saveProfileDoc demoteOthers
  rw [List.map_map, List.countP_map]
  apply List.countP_congr
  intro p hp
  simp only [Function.comp_apply]
  by_cases his : p.id = s
  · simp [his, hqid, hqu, hqd]
  · by_cases hu : p.userId = u
    · simp [his, hu, hqid]
    · simp [his, hu, hqid]

theorem defaultCount_promote_other (ps : ProfileDb) (u s u' : Nat) (q : Profile)
    (hus : ∀ p ∈ ps, p.id = s → p.userId = u)
    (hqid : q.id = s) (hqu : q.userId = u) (hne : u' ≠ u) :
    defaultCount (saveProfileDoc (demoteOthers ps u s) q) u' = defaultCount ps u' := by
  unfold defaultCount saveProfileDoc demoteOthers
  rw [List.map_map, List.countP_map]
  apply List.countP_congr
  intro p hp
  simp only [Function.comp_apply]
  by_cases his : p.id = s
  · have hu := hus p hp his
    simp [his, hu, hqid, hqu, Ne.symm hne]
  · by_cases hu : p.userId = u
    · simp [his, hu, hqid, Ne.symm hne]
    · simp [his, hu, hqid]

theorem mem_demoteOthers {ps : ProfileDb} {u s : Nat} {p : Profile}
    (hp : p ∈ demoteOthers ps u s) :
    ∃ p0 ∈ ps, p.id = p0.id ∧ p.userId = p0.userId := by
  unfold demoteOthers at hp
  obtain ⟨p0, hp0, heq⟩ := List.mem_map.mp hp
  refine ⟨p0, hp0, ?_, ?_⟩ <;> (rw [← heq]; split <;> rfl)

theorem profileInv_setDefaultProfile {ps : ProfileDb} {userId profileId : Nat}
    {ps' : ProfileDb} {r : Option Profile}
    (hok : setDefaultProfile ps userId profileId = .ok (ps', r))
    (h : ProfileInv ps) : ProfileInv ps' := by
  obtain ⟨hids, hdef⟩ := h
  obtain ⟨⟨p0, hfind⟩, hps'⟩ := setDefaultProfile_ok_spec hok
  subst hps'
  have hp0mem := List.mem_of_find?_eq_some hfind
  have hp0pred := List.find?_some hfind
  have hp0id : p0.id = profileId := by
    have := (Bool.and_eq_true _ _).mp hp0pred
    exact eq_of_beq this.1
  have hp0u : p0.userId = userId := by
    have := (Bool.and_eq_true _ _).mp hp0pred
    exact eq_of_beq this.2
  have hus : ∀ p ∈ ps, p.id = profileId → p.userId = userId := by
    intro p hp hpid
    have : p = p0 := nodup_map_unique hids hp hp0mem (by rw [hpid, hp0id])
    rw [this, hp0u]
  constructor
  · unfold IdsNodup
    rw [setIsDefaultTrue_map_id, demoteOthers_map_id]
    exact hids
  · intro u' hu'
    rw [setIsDefaultTrue_map_userId, demoteOthers_map_userId] at hu'
    by_cases hequ : u' = userId
    · subst hequ
      rw [defaultCount_setTrueDemote_self ps u' profileId hus]
      have hone : ps.countP (fun p => p.id == p0.id) = 1 := countP_id_eq_one hids hp0mem
      rw [hp0id] at hone
      exact hone
    · rw [defaultCount_setTrueDemote_other ps userId profileId u' hus hequ]
      exact hdef u' hu'

theorem profileInv_updateProfileById {ps : ProfileDb} {profileId : Nat}
    {body : UpdateProfileBody} {ps' : ProfileDb} {p' : Profile}
    (hok : updateProfileById ps profileId body = .ok (ps', p'))
    (hallowed : body.isDefault ≠ some false)
    (h : ProfileInv ps) : ProfileInv ps' := by
  obtain ⟨hids, hdef⟩ := h
  obtain ⟨profile, hfind, hp', hps'⟩ := updateProfileById_ok_spec hok
  obtain ⟨hmem, hpid⟩ := findProfileById_some hfind
  subst hps'
  have hqid : (updatedProfileDoc profile body).id = profile.id := rfl
  have hqu : (updatedProfileDoc profile body).userId = profile.userId := rfl
  have hus : ∀ p ∈ ps, p.id = profileId → p.userId = profile.userId := by
    intro p hp hp2
    have : p = profile := nodup_map_unique hids hp hmem (by rw [hp2, hpid])
    rw [this]
  by_cases hfire : (updatedProfileDoc profile body).isDefault && !profile.isDefault
  · have hdm : updateDemoted ps profile profileId body =
        demoteOthers ps profile.userId profileId := by
      unfold updateDemoted
      rw [if_pos hfire]
    rw [hdm]
    have hqd : (updatedProfileDoc profile body).isDefault = true :=
      ((Bool.and_eq_true _ _).mp hfire).1
    have hcong2 : ∀ p ∈ demoteOthers ps profile.userId profileId,
        p.id = (updatedProfileDoc profile body).id →
        p.userId = (updatedProfileDoc profile body).userId := by
      intro p hp hpq
      obtain ⟨p0, hp0, hid0, hu0⟩ := mem_demoteOthers hp
      rw [hqid, hpid] at hpq
      rw [hid0] at hpq
      have : p0 = profile := nodup_map_unique hids hp0 hmem (by rw [hpq, hpid])
      rw [hu0, this, hqu]
    constructor
    · unfold IdsNodup
      rw [saveProfileDoc_map_id, demoteOthers_map_id]
      exact hids
    · intro u' hu'
      rw [saveProfileDoc_map_userId _ _ hcong2, demoteOthers_map_userId] at hu'
      by_cases hequ : u' = profile.userId
      · subst hequ
        rw [defaultCount_promote_self ps profile.userId profileId
          (updatedProfileDoc profile body) hus (by rw [hqid, hpid]) hqu hqd]
        have hone : ps.countP (fun p => p.id == profile.id) = 1 := countP_id_eq_one hids hmem
        rw [hpid] at hone
        exact hone
      · rw [defaultCount_promote_other ps profile.userId profileId u'
          (updatedProfileDoc profile body) hus (by rw [hqid, hpid]) hqu hequ]
        exact hdef u' hu'
  · have hdm : updateDemoted ps profile profileId body = ps := by
      unfold updateDemoted
      rw [if_neg hfire]
    rw [hdm]
    have hdsame : (updatedProfileDoc profile body).isDefault = profile.isDefault := by
      cases hbd : body.isDefault with
      | none => simp [updatedProfileDoc, hbd]
      | some b =>
        cases b with
        | false => exact absurd hbd hallowed
        | true =>
          have hq : (updatedProfileDoc profile body).isDefault = true := by
            simp [updatedProfileDoc, hbd]
          rw [hq] at hfire ⊢
          cases hpd : profile.isDefault with
          | true => rfl
          | false => rw [hpd] at hfire; simp at hfire
    have hcong : ∀ p ∈ ps, p.id = (updatedProfileDoc profile body).id → p.userId =
        (updatedProfileDoc profile body).userId := by
      intro p hp hpq
      rw [hqid] at hpq
      have : p = profile := nodup_map_unique hids hp hmem hpq
      rw [this, hqu]
    constructor
    · unfold IdsNodup
      rw [saveProfileDoc_map_id]
      exact hids
    · intro u' hu'
      rw [saveProfileDoc_map_userId _ _ hcong] at hu'
      have hcnt : defaultCount (saveProfileDoc ps (updatedProfileDoc profile body)) u' =
          defaultCount ps u' := by
        apply countP_saveProfileDoc_congr
        intro p hp hpq
        rw [hqid] at hpq
        have hpprof : p = profile := nodup_map_unique hids hp hmem hpq
        rw [hpprof, hqu, hdsame]
      rw [hcnt]
      exact hdef u' hu'

theorem mem_of_head?_some {l : List Profile} {a : Profile} (h : l.head? = some a) : a ∈ l := by
  obtain ⟨ys, hys⟩ := List.head?_eq_some_iff.mp h
  rw [hys]
  exact List.mem_cons_self a ys

theorem nodup_ids_filter {ps : ProfileDb} (f : Profile → Bool) (hids : IdsNodup ps) :
    IdsNodup (ps.filter f) := by
  unfold IdsNodup at hids ⊢
  exact ((List.filter_sublist ps).map Profile.id).nodup hids

theorem set_true_eq_self {other : Profile} (h : other.isDefault = true) :
    ({ other with isDefault := true } : Profile) = other := by
  cases other
  simp_all

theorem saveProfileDoc_self_eq {ps : ProfileDb} {q : Profile}
    (hids : IdsNodup ps) (hmem : q ∈ ps) : saveProfileDoc ps q = ps := by
  unfold saveProfileDoc
  have : ∀ p ∈ ps, (if p.id = q.id then q else p) = p := by
    intro p hp
    by_cases hid : p.id = q.id
    · rw [if_pos hid]
      exact (nodup_map_unique hids hp hmem hid).symm
    · rw [if_neg hid]
  calc ps.map (fun p => if p.id = q.id then q else p) = ps.map id := List.map_congr_left this
    _ = ps := List.map_id ps

theorem promote_filter_comm (ps : ProfileDb) (u s pid : Nat) (q : Profile)
    (hqid : q.id = s) :
    (saveProfileDoc (demoteOthers ps u s) q).filter (fun p => p.id != pid) =
      saveProfileDoc (demoteOthers (ps.filter (fun p => p.id != pid)) u s) q := by
  unfold saveProfileDoc demoteOthers
  rw [List.map_map, List.filter_map, List.map_map]
  congr 1
  apply List.filter_congr
  intro p _
  simp only [Function.comp_apply]
  by_cases his : p.id = s
  · simp [his, hqid]
  · by_cases hu : p.userId = u
    · simp [his, hu, hqid]
    · simp [his, hu, hqid]

theorem countP_filter_neq_of_pred_false {ps : ProfileDb} {prof : Profile} {pid : Nat}
    (pred : Profile → Bool) (hids : IdsNodup ps) (hmem : prof ∈ ps) (hpid : prof.id = pid)
    (hpred : pred prof = false) :
    ps.countP (fun p => pred p && p.id != pid) = ps.countP pred := by
  apply List.countP_congr
  intro p hp
  by_cases hid : p.id = pid
  · have : p = prof := nodup_map_unique hids hp hmem (by rw [hid, hpid])
    rw [this]
    simp [hpred]
  · simp [hid]

theorem deletePromoted_map_id (ps : ProfileDb) (pid : Nat) (prof : Profile) :
    (deletePromoted ps pid prof).map Profile.id = ps.map Profile.id := by
  unfold deletePromoted
  split
  · split
    · next other _ =>
      rw [saveProfileDoc_map_id]
      split
      · rfl
      · rw [demoteOthers_map_id]
    · rfl
  · rfl

theorem profileInv_deleteProfileById {ps : ProfileDb} {profileId : Nat}
    {ps' : ProfileDb} {prof : Profile}
    (hok : deleteProfileById ps profileId = .ok (ps', prof))
    (h : ProfileInv ps) : ProfileInv ps' := by
  obtain ⟨hids, hdef⟩ := h
  obtain ⟨hfind, hps'⟩ := deleteProfileById_ok_spec hok
  obtain ⟨hmem, hpid⟩ := findProfileById_some hfind
  subst hps'
  have hu : prof.userId ∈ ps.map Profile.userId := List.mem_map_of_mem Profile.userId hmem
  have hFnodup : IdsNodup (ps.filter (fun p => p.id != profileId)) := nodup_ids_filter _ hids
  constructor
  · apply nodup_ids_filter
    unfold IdsNodup
    rw [deletePromoted_map_id]
    exact hids
  · unfold deletePromoted
    by_cases hpd : prof.isDefault = true
    · rw [if_pos hpd]
      cases hhead : (ps.filter (fun p => p.userId == prof.userId && p.id != profileId)).head? with
      | none =>
        intro u' hu'
        have hempty := List.head?_eq_none_iff.mp hhead
        obtain ⟨p, hpmem, hpu⟩ := List.mem_map.mp hu'
        have hpmem' := List.mem_filter.mp hpmem
        by_cases hueq : u' = prof.userId
        · exfalso
          have : p ∈ ps.filter (fun p => p.userId == prof.userId && p.id != profileId) := by
            apply List.mem_filter.mpr
            refine ⟨hpmem'.1, ?_⟩
            simp only [Bool.and_eq_true]
            exact ⟨by simp [hpu, hueq], hpmem'.2⟩
          rw [hempty] at this
          cases this
        · have hcnt : defaultCount (ps.filter (fun p => p.id != profileId)) u' =
              defaultCount ps u' := by
            unfold defaultCount
            rw [List.countP_filter]
            apply countP_filter_neq_of_pred_false _ hids hmem hpid
            simp [Ne.symm hueq]
          rw [hcnt]
          exact hdef u' (List.mem_map.mpr ⟨p, hpmem'.1, hpu⟩)
      | some other =>
        have hothermem := List.mem_filter.mp (mem_of_head?_some hhead)
        have hoth := (Bool.and_eq_true _ _).mp hothermem.2
        have hou : other.userId = prof.userId := eq_of_beq hoth.1
        have hoid : (other.id != profileId) = true := hoth.2
        have hoidne : other.id ≠ profileId := by simpa using hoid
        show DefaultInv (List.filter (fun p => p.id != profileId)
          (saveProfileDoc (if other.isDefault = true then ps
            else demoteOthers ps other.userId other.id) { other with isDefault := true }))
        by_cases hod : other.isDefault = true
        · exfalso
          have hone := hdef prof.userId hu
          have htwo : 2 ≤ defaultCount ps prof.userId := by
            apply two_le_countP hmem hothermem.1
            · intro heq
              apply hoidne
              rw [← heq, hpid]
            · simp [hpd]
            · simp [hou, hod]
          omega
        · rw [if_neg hod]
          intro u' hu'
          rw [promote_filter_comm ps other.userId other.id profileId { other with isDefault := true } rfl] at hu' ⊢
          have hotherF : other ∈ ps.filter (fun p => p.id != profileId) :=
            List.mem_filter.mpr ⟨hothermem.1, hoid⟩
          have husF : ∀ p ∈ ps.filter (fun p => p.id != profileId),
              p.id = other.id → p.userId = other.userId := by
            intro p hp hpo
            have hpps := (List.mem_filter.mp hp).1
            have : p = other := nodup_map_unique hids hpps hothermem.1 hpo
            rw [this]
          have hcongF : ∀ p ∈ demoteOthers (ps.filter (fun p => p.id != profileId))
              other.userId other.id,
              p.id = ({ other with isDefault := true } : Profile).id →
              p.userId = ({ other with isDefault := true } : Profile).userId := by
            intro p hp hpo
            obtain ⟨p0, hp0, hid0, hu0⟩ := mem_demoteOthers hp
            rw [hid0] at hpo
            rw [hu0, husF p0 hp0 hpo]
          rw [saveProfileDoc_map_userId _ _ hcongF, demoteOthers_map_userId] at hu'
          by_cases hueq : u' = prof.userId
          · rw [hueq, ← hou]
            rw [defaultCount_promote_self _ other.userId other.id
              { other with isDefault := true } husF rfl rfl rfl]
            exact countP_id_eq_one hFnodup hotherF
          · rw [defaultCount_promote_other _ other.userId other.id u'
              { other with isDefault := true } husF rfl rfl
              (fun hbad => hueq (by rw [hbad, hou]))]
            have hcnt : defaultCount (ps.filter (fun p => p.id != profileId)) u' =
                defaultCount ps u' := by
              unfold defaultCount
              rw [List.countP_filter]
              apply countP_filter_neq_of_pred_false _ hids hmem hpid
              simp [Ne.symm hueq]
            rw [hcnt]
            have hu'ps : u' ∈ ps.map Profile.userId :=
              ((List.filter_sublist ps).map Profile.userId).subset hu'
            exact hdef u' hu'ps
    · rw [if_neg hpd]
      intro u' hu'
      have hu'ps : u' ∈ ps.map Profile.userId :=
        ((List.filter_sublist ps).map Profile.userId).subset hu'
      have hdfalse : prof.isDefault = false := Bool.of_not_eq_true hpd
      have hcnt : defaultCount (ps.filter (fun p => p.id != profileId)) u' =
          defaultCount ps u' := by
        unfold defaultCount
        rw [List.countP_filter]
        apply countP_filter_neq_of_pred_false _ hids hmem hpid
        simp [hdfalse]
      rw [hcnt]
      exact hdef u' hu'ps

theorem profileInv_applyProfileOp (ps : ProfileDb) (op : ProfileOp)
    (h : ProfileInv ps) (hop : OpKeepsDefaultFlag op) : ProfileInv (applyProfileOp ps op) := by
  cases op with
  | create body =>
    show ProfileInv (match createProfile ps body with
      | .ok (ps', _) => ps'
      | .error _ => ps)
    cases hres : createProfile ps body with
    | error e => exact h
    | ok pr =>
      obtain ⟨ps', newP⟩ := pr
      exact profileInv_createProfile hres h
  | update profileId body =>
    show ProfileInv (match updateProfileById ps profileId body with
      | .ok (ps', _) => ps'
      | .error _ => ps)
    cases hres : updateProfileById ps profileId body with
    | error e => exact h
    | ok pr =>
      obtain ⟨ps', p'⟩ := pr
      exact profileInv_updateProfileById hres hop h
  | setDefault userId profileId =>
    show ProfileInv (match setDefaultProfile ps userId profileId with
      | .ok (ps', _) => ps'
      | .error _ => ps)
    cases hres : setDefaultProfile ps userId profileId with
    | error e => exact h
    | ok pr =>
      obtain ⟨ps', r⟩ := pr
      exact profileInv_setDefaultProfile hres h
  | delete profileId =>
    show ProfileInv (match deleteProfileById ps profileId with
      | .ok (ps', _) => ps'
      | .error _ => ps)
    cases hres : deleteProfileById ps profileId with
    | error e => exact h
    | ok pr =>
      obtain ⟨ps', prof⟩ := pr
      exact profileInv_deleteProfileById hres h

theorem profileInv_applyProfileOps (ps : ProfileDb) (ops : List ProfileOp)
    (h : ProfileInv ps) (hops : ∀ op ∈ ops, OpKeepsDefaultFlag op) :
    ProfileInv (applyProfileOps ps ops) := by
  induction ops generalizing ps with
  | nil => exact h
  | cons op rest ih =>
    exact ih (applyProfileOp ps op)
      (profileInv_applyProfileOp ps op h (hops op (List.mem_cons_self op rest)))
      (fun o ho => hops o (List.mem_cons_of_mem op ho))

/-- C1 (amended): starting from a collection satisfying the
single-default invariant, after every sequence of createProfile,
updateProfileById, setDefaultProfile and deleteProfileById operations in
which no update patch sets isDefault to false, every account owning at
least one profile owns exactly one default profile.  (As stated the
claim is false: an update patch with isDefault false demotes the default
without promoting a replacement; see the counterexample.) -/
theorem single_default_invariant (ps : ProfileDb) (ops : List ProfileOp)
    (hinv : ProfileInv ps) (hops : ∀ op ∈ ops, OpKeepsDefaultFlag op) :
    ∀ userId, 1 ≤ profileCount (applyProfileOps ps ops) userId →
      defaultCount (applyProfileOps ps ops) userId = 1 := by
  intro uid hpos
  exact (profileInv_applyProfileOps ps ops hinv hops).2 uid
    (mem_userId_of_profileCount_pos hpos)

/-- Witness for C1 (amended) on a concrete history: two creations, a
default switch, an update and a deletion. -/
theorem single_default_invariant_witness :
    defaultCount (applyProfileOps []
      [.create { userId := 1, profileName := "ab", displayName := "ab",
                 profileType := .PUBLIC, status := .PUBLIC, isActive := true, isDefault := false },
       .create { userId := 1, profileName := "cd", displayName := "cd",
                 profileType := .ANONYMOUS, status := .PRIVATE, isActive := true, isDefault := true },
       .setDefault 1 1,
       .update 2 { profileName := none, displayName := some "x", isActive := none,
                   isDefault := some true },
       .delete 2]) 1 = 1 :=
  single_default_invariant []
    [.create { userId := 1, profileName := "ab", displayName := "ab",
               profileType := .PUBLIC, status := .PUBLIC, isActive := true, isDefault := false },
     .create { userId := 1, profileName := "cd", displayName := "cd",
               profileType := .ANONYMOUS, status := .PRIVATE, isActive := true, isDefault := true },
     .setDefault 1 1,
     .update 2 { profileName := none, displayName := some "x", isActive := none,
                 isDefault := some true },
     .delete 2]
    (by decide) (by decide) 1 (by decide)

/-- Counterexample for C1 as stated: from an invariant-satisfying state
with one profile, an updateProfileById patch setting isDefault to false
leaves the account with one profile and zero defaults. -/
theorem single_default_counterexample :
    ProfileInv [{ id := 1, userId := 1, profileName := "main", displayName := "Main",
                  profileType := ProfileType.PUBLIC, status := ProfileStatus.PUBLIC,
                  isActive := true, isDefault := true }] ∧
    1 ≤ profileCount (applyProfileOps
      [{ id := 1, userId := 1, profileName := "main", displayName := "Main",
         profileType := ProfileType.PUBLIC, status := ProfileStatus.PUBLIC,
         isActive := true, isDefault := true }]
      [.update 1 { profileName := none, displayName := none, isActive := none,
                   isDefault := some false }]) 1 ∧
    defaultCount (applyProfileOps
      [{ id := 1, userId := 1, profileName := "main", displayName := "Main",
         profileType := ProfileType.PUBLIC, status := ProfileStatus.PUBLIC,
         isActive := true, isDefault := true }]
      [.update 1 { profileName := none, displayName := none, isActive := none,
                   isDefault := some false }]) 1 = 0 := by
  decide

/-- C3 (amended): the create path does demote siblings.  When
createProfile succeeds with a body requesting isDefault = true, the new
profile is default and every pre-existing profile of the account is left
non-default: the default-demotion pre-save hook fires on Profile.create
because isDefault is an explicitly set, hence modified, path of the new
document. -/
theorem create_with_default_demotes_siblings (ps : ProfileDb) (body : CreateProfileBody)
    (ps' : ProfileDb) (newP : Profile)
    (hok : createProfile ps body = .ok (ps', newP)) (hd : body.isDefault = true) :
    newP.isDefault = true ∧
    ∀ p ∈ ps', p.id ≠ newP.id → p.userId = body.userId → p.isDefault = false := by
  obtain ⟨-, -, hnew, hps⟩ := createProfile_ok_spec hok
  subst hnew
  subst hps
  have hcd : createIsDefault ps body = true := by
    unfold createIsDefault
    rw [hd]
    exact Bool.or_true _
  refine ⟨by simp [newProfileDoc, hcd], ?_⟩
  intro p hp hpne hpu
  rcases List.mem_append.mp hp with hp' | hp'
  · rw [createDemoted, if_pos hcd] at hp'
    unfold demoteOthers at hp'
    obtain ⟨p0, hp0, heq⟩ := List.mem_map.mp hp'
    by_cases hc : p0.userId = body.userId ∧ p0.id ≠ freshProfileId ps
    · rw [if_pos hc] at heq
      rw [← heq]
    · rw [if_neg hc] at heq
      subst heq
      exfalso
      have : p0.id = freshProfileId ps := by
        by_contra hne2
        exact hc ⟨hpu, hne2⟩
      exact absurd this (Nat.ne_of_lt (id_lt_freshProfileId ps hp0))
  · exfalso
    have : p = newProfileDoc ps body := by simpa using hp'
    exact hpne (by rw [this])

/-- Witness for C3 (amended) at a concrete account with one sibling. -/
theorem create_with_default_demotes_siblings_witness :
    (newProfileDoc
      [{ id := 1, userId := 1, profileName := "main", displayName := "Main",
         profileType := ProfileType.PUBLIC, status := ProfileStatus.PUBLIC,
         isActive := true, isDefault := true }]
      { userId := 1, profileName := "second", displayName := "Second",
        profileType := ProfileType.PUBLIC, status := ProfileStatus.PUBLIC,
        isActive := true, isDefault := true }).isDefault = true ∧
    ∀ p ∈ (createDemoted
      [{ id := 1, userId := 1, profileName := "main", displayName := "Main",
         profileType := ProfileType.PUBLIC, status := ProfileStatus.PUBLIC,
         isActive := true, isDefault := true }]
      { userId := 1, profileName := "second", displayName := "Second",
        profileType := ProfileType.PUBLIC, status := ProfileStatus.PUBLIC,
        isActive := true, isDefault := true } ++
      [newProfileDoc
        [{ id := 1, userId := 1, profileName := "main", displayName := "Main",
           profileType := ProfileType.PUBLIC, status := ProfileStatus.PUBLIC,
           isActive := true, isDefault := true }]
        { userId := 1, profileName := "second", displayName := "Second",
          profileType := ProfileType.PUBLIC, status := ProfileStatus.PUBLIC,
          isActive := true, isDefault := true }]),
      p.id ≠ (newProfileDoc
        [{ id := 1, userId := 1, profileName := "main", displayName := "Main",
           profileType := ProfileType.PUBLIC, status := ProfileStatus.PUBLIC,
           isActive := true, isDefault := true }]
        { userId := 1, profileName := "second", displayName := "Second",
          profileType := ProfileType.PUBLIC, status := ProfileStatus.PUBLIC,
          isActive := true, isDefault := true }).id →
      p.userId = 1 → p.isDefault = false :=
  create_with_default_demotes_siblings
    [{ id := 1, userId := 1, profileName := "main", displayName := "Main",
       profileType := ProfileType.PUBLIC, status := ProfileStatus.PUBLIC,
       isActive := true, isDefault := true }]
    { userId := 1, profileName := "second", displayName := "Second",
      profileType := ProfileType.PUBLIC, status := ProfileStatus.PUBLIC,
      isActive := true, isDefault := true }
    _ _ rfl (by decide)

/-- Counterexample for C3 as stated: creating a second profile with
isDefault = true flips the sibling from default to non-default, and the
new profile ends default — the create path does demote siblings. -/
theorem create_no_demote_counterexample :
    findProfileById (applyProfileOp
      [{ id := 1, userId := 1, profileName := "main", displayName := "Main",
         profileType := ProfileType.PUBLIC, status := ProfileStatus.PUBLIC,
         isActive := true, isDefault := true }]
      (.create { userId := 1, profileName := "second", displayName := "Second",
                 profileType := ProfileType.PUBLIC, status := ProfileStatus.PUBLIC,
                 isActive := true, isDefault := true })) 1 =
      some { id := 1, userId := 1, profileName := "main", displayName := "Main",
             profileType := ProfileType.PUBLIC, status := ProfileStatus.PUBLIC,
             isActive := true, isDefault := false } ∧
    findProfileById (applyProfileOp
      [{ id := 1, userId := 1, profileName := "main", displayName := "Main",
         profileType := ProfileType.PUBLIC, status := ProfileStatus.PUBLIC,
         isActive := true, isDefault := true }]
      (.create { userId := 1, profileName := "second", displayName := "Second",
                 profileType := ProfileType.PUBLIC, status := ProfileStatus.PUBLIC,
                 isActive := true, isDefault := true })) 2 =
      some { id := 2, userId := 1, profileName := "second", displayName := "Second",
             profileType := ProfileType.PUBLIC, status := ProfileStatus.PUBLIC,
             isActive := true, isDefault := true } := by
  decide

theorem find?_eq_of_countP_eq_one {ps : ProfileDb} {pred : Profile → Bool}
    (h1 : ps.countP pred = 1) {p : Profile} (hp : p ∈ ps) (hpred : pred p = true) :
    ps.find? pred = some p := by
  induction ps with
  | nil => cases hp
  | cons x xs ih =>
    rw [List.countP_cons] at h1
    by_cases hx : pred x = true
    · rw [List.find?_cons_of_pos _ hx]
      rcases List.mem_cons.mp hp with rfl | hp'
      · rfl
      · exfalso
        rw [hx] at h1
        simp only [if_true] at h1
        have : 0 < xs.countP pred := List.countP_pos_iff.mpr ⟨p, hp', hpred⟩
        omega
    · rw [List.find?_cons_of_neg _ hx]
      rcases List.mem_cons.mp hp with rfl | hp'
      · exact absurd hpred hx
      · apply ih _ hp'
        rw [if_neg hx] at h1
        omega

/-- C4: getDefaultProfile returns the unique default profile of the
account when exactly one exists, and when the account has no default
profile the service returns none and the controller signals NotFound. -/
theorem get_default_profile_spec (ps : ProfileDb) (userId : Nat) :
    (∀ p ∈ ps, defaultCount ps userId = 1 → p.userId = userId → p.isDefault = true →
      getDefaultProfile ps userId = some p) ∧
    (defaultCount ps userId = 0 →
      getDefaultProfile ps userId = none ∧
      getDefaultProfileHandler ps userId = .error (.notFound "No default profile found")) := by
  constructor
  · intro p hp hone hpu hpd
    unfold getDefaultProfile
    apply find?_eq_of_countP_eq_one _ hp
    · simp [hpu, hpd]
    · exact hone
  · intro hzero
    have hnone : getDefaultProfile ps userId = none := by
      unfold getDefaultProfile
      rw [List.find?_eq_none]
      intro p hp hbad
      have := List.countP_eq_zero.mp hzero p hp
      exact this hbad
    refine ⟨hnone, ?_⟩
    unfold getDefaultProfileHandler
    rw [hnone]

/-- Witness for C4: a two-profile account with one default, and an
account with no default at all. -/
theorem get_default_profile_spec_witness :
    getDefaultProfile
      [{ id := 1, userId := 1, profileName := "aa", displayName := "aa",
         profileType := ProfileType.PUBLIC, status := ProfileStatus.PUBLIC,
         isActive := true, isDefault := false },
       { id := 2, userId := 1, profileName := "bb", displayName := "bb",
         profileType := ProfileType.PUBLIC, status := ProfileStatus.PUBLIC,
         isActive := true, isDefault := true }] 1 =
      some { id := 2, userId := 1, profileName := "bb", displayName := "bb",
             profileType := ProfileType.PUBLIC, status := ProfileStatus.PUBLIC,
             isActive := true, isDefault := true } ∧
    getDefaultProfileHandler
      [{ id := 1, userId := 1, profileName := "aa", displayName := "aa",
         profileType := ProfileType.PUBLIC, status := ProfileStatus.PUBLIC,
         isActive := true, isDefault := false }] 1 =
      .error (.notFound "No default profile found") :=
  ⟨(get_default_profile_spec
      [{ id := 1, userId := 1, profileName := "aa", displayName := "aa",
         profileType := ProfileType.PUBLIC, status := ProfileStatus.PUBLIC,
         isActive := true, isDefault := false },
       { id := 2, userId := 1, profileName := "bb", displayName := "bb",
         profileType := ProfileType.PUBLIC, status := ProfileStatus.PUBLIC,
         isActive := true, isDefault := true }] 1).1
     { id := 2, userId := 1, profileName := "bb", displayName := "bb",
       profileType := ProfileType.PUBLIC, status := ProfileStatus.PUBLIC,
       isActive := true, isDefault := true }
     (by decide) (by decide) (by decide) (by decide),
   ((get_default_profile_spec
      [{ id := 1, userId := 1, profileName := "aa", displayName := "aa",
         profileType := ProfileType.PUBLIC, status := ProfileStatus.PUBLIC,
         isActive := true, isDefault := false }] 1).2 (by decide)).2⟩

theorem countP_split (l : ProfileDb) (p c : Profile → Bool) :
    l.countP p = l.countP (fun a => p a && c a) + l.countP (fun a => p a && !(c a)) := by
  induction l with
  | nil => simp
  | cons x xs ih =>
    rw [List.countP_cons, List.countP_cons, List.countP_cons]
    by_cases hp : p x = true
    · by_cases hc : c x = true <;> simp [hp, hc] <;> omega
    · simp [hp]
      omega

theorem countP_ne_of_unique {ps : ProfileDb} {prof : Profile} {pid : Nat}
    (pred : Profile → Bool) (hids : IdsNodup ps) (hmem : prof ∈ ps)
    (hpid : prof.id = pid) (hpred : pred prof = true) :
    ps.countP (fun p => pred p && p.id != pid) = ps.countP pred - 1 ∧
      1 ≤ ps.countP pred := by
  have hone : ps.countP (fun p => pred p && !(p.id != pid)) = 1 := by
    have hpt : ∀ p ∈ ps,
        ((pred p && !(p.id != pid)) = true ↔ (p.id == prof.id) = true) := by
      intro p hp
      by_cases hid : p.id = pid
      · have hpp : p = prof := nodup_map_unique hids hp hmem (by rw [hid, hpid])
        subst hpp
        simp [hpid, hpred]
      · simp [hid, hpid]
    rw [List.countP_congr hpt]
    exact countP_id_eq_one hids hmem
  have hsplit := countP_split ps pred (fun p => p.id != pid)
  omega

theorem countP_deletePromoted {ps : ProfileDb} {pid : Nat} {prof : Profile}
    (pred : Profile → Bool) (hids : IdsNodup ps)
    (hpred : ∀ p q : Profile, p.id = q.id → p.userId = q.userId → pred p = pred q) :
    (deletePromoted ps pid prof).countP pred = ps.countP pred := by
  unfold deletePromoted
  by_cases hpd : prof.isDefault = true
  · rw [if_pos hpd]
    cases hhead : (ps.filter (fun p => p.userId == prof.userId && p.id != pid)).head? with
    | none => rfl
    | some other =>
      show (saveProfileDoc (if other.isDefault = true then ps
        else demoteOthers ps other.userId other.id)
          { other with isDefault := true }).countP pred = ps.countP pred
      have hothermem := (List.mem_filter.mp (mem_of_head?_some hhead)).1
      by_cases hod : other.isDefault = true
      · rw [if_pos hod, set_true_eq_self hod, saveProfileDoc_self_eq hids hothermem]
      · rw [if_neg hod]
        unfold saveProfileDoc demoteOthers
        rw [List.map_map, List.countP_map]
        apply List.countP_congr
        intro p hp
        simp only [Function.comp_apply]
        by_cases his : p.id = other.id
        · have hpother : p = other := nodup_map_unique hids hp hothermem his
          subst hpother
          have h1 : ¬(p.userId = p.userId ∧ p.id ≠ p.id) := fun hc => hc.2 rfl
          rw [if_neg h1,
            if_pos (show p.id = ({ p with isDefault := true } : Profile).id from rfl),
            hpred ({ p with isDefault := true }) p rfl rfl]
        · by_cases hu : p.userId = other.userId
          · rw [if_pos (show p.userId = other.userId ∧ p.id ≠ other.id from ⟨hu, his⟩),
              if_neg (show ¬({ p with isDefault := false } : Profile).id =
                ({ other with isDefault := true } : Profile).id from his),
              hpred ({ p with isDefault := false }) p rfl rfl]
          · have h1 : ¬(p.userId = other.userId ∧ p.id ≠ other.id) := fun hc => hu hc.1
            rw [if_neg h1,
              if_neg (show ¬p.id = ({ other with isDefault := true } : Profile).id from his)]
  · rw [if_neg hpd]

/-- C5: deleteProfileById signals NotFound when the profile is missing;
deleting the default profile of an account owning at least two profiles
leaves exactly one of the remaining profiles default (and one fewer
profile); deleting the last profile of an account leaves it with zero
profiles. -/
theorem delete_profile_spec (ps : ProfileDb) (profileId : Nat)
    (hids : IdsNodup ps) (hdef : DefaultInv ps) :
    (findProfileById ps profileId = none →
      deleteProfileById ps profileId = .error (.notFound "Profile not found")) ∧
    (∀ prof, findProfileById ps profileId = some prof → prof.isDefault = true →
      2 ≤ profileCount ps prof.userId →
      ∃ ps', deleteProfileById ps profileId = .ok (ps', prof) ∧
        defaultCount ps' prof.userId = 1 ∧
        profileCount ps' prof.userId = profileCount ps prof.userId - 1) ∧
    (∀ prof, findProfileById ps profileId = some prof →
      profileCount ps prof.userId = 1 →
      ∃ ps', deleteProfileById ps profileId = .ok (ps', prof) ∧
        profileCount ps' prof.userId = 0) := by
  refine ⟨?_, ?_, ?_⟩
  · intro hnone
    unfold deleteProfileById
    rw [hnone]
  · intro prof hfind hd hcount
    obtain ⟨hmem, hpid⟩ := findProfileById_some hfind
    have hok : deleteProfileById ps profileId =
        .ok ((deletePromoted ps profileId prof).filter (fun p => p.id != profileId), prof) := by
      unfold deleteProfileById
      rw [hfind]
    have hpc : profileCount
        ((deletePromoted ps profileId prof).filter (fun p => p.id != profileId)) prof.userId =
        profileCount ps prof.userId - 1 := by
      unfold profileCount
      rw [List.countP_filter,
        countP_deletePromoted _ hids (fun p q hid huid => by simp [hid, huid])]
      exact (countP_ne_of_unique _ hids hmem hpid (by simp)).1
    have hinv' := profileInv_deleteProfileById hok ⟨hids, hdef⟩
    refine ⟨_, hok, ?_, hpc⟩
    apply hinv'.2
    apply mem_userId_of_profileCount_pos
    omega
  · intro prof hfind hone
    obtain ⟨hmem, hpid⟩ := findProfileById_some hfind
    have hok : deleteProfileById ps profileId =
        .ok ((deletePromoted ps profileId prof).filter (fun p => p.id != profileId), prof) := by
      unfold deleteProfileById
      rw [hfind]
    have hpc : profileCount
        ((deletePromoted ps profileId prof).filter (fun p => p.id != profileId)) prof.userId =
        profileCount ps prof.userId - 1 := by
      unfold profileCount
      rw [List.countP_filter,
        countP_deletePromoted _ hids (fun p q hid huid => by simp [hid, huid])]
      exact (countP_ne_of_unique _ hids hmem hpid (by simp)).1
    exact ⟨_, hok, by omega⟩

/-- Witness for C5: the NotFound case, the cascade case on a two-profile
account, and the delete-to-zero case on a one-profile account. -/
theorem delete_profile_spec_witness :
    (deleteProfileById
      [{ id := 1, userId := 1, profileName := "aa", displayName := "aa",
         profileType := ProfileType.PUBLIC, status := ProfileStatus.PUBLIC,
         isActive := true, isDefault := true },
       { id := 2, userId := 1, profileName := "bb", displayName := "bb",
         profileType := ProfileType.PUBLIC, status := ProfileStatus.PUBLIC,
         isActive := true, isDefault := false }] 9 =
      .error (.notFound "Profile not found")) ∧
    (∃ ps', deleteProfileById
      [{ id := 1, userId := 1, profileName := "aa", displayName := "aa",
         profileType := ProfileType.PUBLIC, status := ProfileStatus.PUBLIC,
         isActive := true, isDefault := true },
       { id := 2, userId := 1, profileName := "bb", displayName := "bb",
         profileType := ProfileType.PUBLIC, status := ProfileStatus.PUBLIC,
         isActive := true, isDefault := false }] 1 =
      .ok (ps', { id := 1, userId := 1, profileName := "aa", displayName := "aa",
                  profileType := ProfileType.PUBLIC, status := ProfileStatus.PUBLIC,
                  isActive := true, isDefault := true }) ∧
      defaultCount ps' 1 = 1 ∧ profileCount ps' 1 = 1) ∧
    (∃ ps', deleteProfileById
      [{ id := 3, userId := 2, profileName := "cc", displayName := "cc",
         profileType := ProfileType.PUBLIC, status := ProfileStatus.PUBLIC,
         isActive := true, isDefault := true }] 3 =
      .ok (ps', { id := 3, userId := 2, profileName := "cc", displayName := "cc",
                  profileType := ProfileType.PUBLIC, status := ProfileStatus.PUBLIC,
                  isActive := true, isDefault := true }) ∧
      profileCount ps' 2 = 0) :=
  ⟨(delete_profile_spec
      [{ id := 1, userId := 1, profileName := "aa", displayName := "aa",
         profileType := ProfileType.PUBLIC, status := ProfileStatus.PUBLIC,
         isActive := true, isDefault := true },
       { id := 2, userId := 1, profileName := "bb", displayName := "bb",
         profileType := ProfileType.PUBLIC, status := ProfileStatus.PUBLIC,
         isActive := true, isDefault := false }] 9 (by decide) (by decide)).1 (by decide),
   (delete_profile_spec
      [{ id := 1, userId := 1, profileName := "aa", displayName := "aa",
         profileType := ProfileType.PUBLIC, status := ProfileStatus.PUBLIC,
         isActive := true, isDefault := true },
       { id := 2, userId := 1, profileName := "bb", displayName := "bb",
         profileType := ProfileType.PUBLIC, status := ProfileStatus.PUBLIC,
         isActive := true, isDefault := false }] 1 (by decide) (by decide)).2.1
     { id := 1, userId := 1, profileName := "aa", displayName := "aa",
       profileType := ProfileType.PUBLIC, status := ProfileStatus.PUBLIC,
       isActive := true, isDefault := true } (by decide) (by decide) (by decide),
   (delete_profile_spec
      [{ id := 3, userId := 2, profileName := "cc", displayName := "cc",
         profileType := ProfileType.PUBLIC, status := ProfileStatus.PUBLIC,
         isActive := true, isDefault := true }] 3 (by decide) (by decide)).2.2
     { id := 3, userId := 2, profileName := "cc", displayName := "cc",
       profileType := ProfileType.PUBLIC, status := ProfileStatus.PUBLIC,
       isActive := true, isDefault := true } (by decide) (by decide)⟩

theorem taken_none_iff (ps : ProfileDb) (n : String) (u : Nat) :
    isProfileNameTaken ps n u none = true ↔
      ∃ p ∈ ps, p.profileName = n ∧ p.userId = u := by
  unfold isProfileNameTaken
  rw [List.any_eq_true]
  constructor
  · rintro ⟨p, hp, hpred⟩
    simp only [Bool.and_eq_true, beq_iff_eq] at hpred
    exact ⟨p, hp, hpred.1.1, hpred.1.2⟩
  · rintro ⟨p, hp, hn, hu⟩
    exact ⟨p, hp, by simp [hn, hu]⟩

theorem taken_excl_imp {ps : ProfileDb} {n : String} {u e : Nat}
    (h : isProfileNameTaken ps n u (some e) = true) :
    isProfileNameTaken ps n u none = true := by
  unfold isProfileNameTaken at h ⊢
  rw [List.any_eq_true] at h ⊢
  obtain ⟨p, hp, hpred⟩ := h
  simp only [Bool.and_eq_true] at hpred
  exact ⟨p, hp, by simp [hpred.1.1, hpred.1.2]⟩

theorem taken_append (xs ys : ProfileDb) (n : String) (u : Nat) (e : Option Nat) :
    isProfileNameTaken (xs ++ ys) n u e =
      (isProfileNameTaken xs n u e || isProfileNameTaken ys n u e) := by
  unfold isProfileNameTaken
  exact List.any_append

theorem isProfileNameTaken_createDemoted (ps : ProfileDb) (body : CreateProfileBody)
    (n : String) (u : Nat) (e : Option Nat) :
    isProfileNameTaken (createDemoted ps body) n u e = isProfileNameTaken ps n u e := by
  unfold createDemoted
  split
  · exact isProfileNameTaken_demoteOthers ps body.userId (freshProfileId ps) n u e
  · rfl

theorem createProfile_succeeds {ps : ProfileDb} {body : CreateProfileBody}
    (hnot : isProfileNameTaken ps body.profileName body.userId none = false)
    (hlen : 2 ≤ body.profileName.length) :
    createProfile ps body =
      .ok (createDemoted ps body ++ [newProfileDoc ps body], newProfileDoc ps body) := by
  unfold createProfile
  rw [if_neg (show ¬isProfileNameTaken ps body.profileName body.userId none = true by
      rw [hnot]; exact Bool.false_ne_true),
    if_neg (show ¬body.profileName.length < 2 by omega),
    if_neg (show ¬isProfileNameTaken (createDemoted ps body) body.profileName body.userId
        (some (freshProfileId ps)) = true from ?_)]
  intro hbad
  rw [isProfileNameTaken_createDemoted] at hbad
  have := taken_excl_imp hbad
  rw [hnot] at this
  cases this

/-- C7: createProfile signals Conflict exactly when the (account,
profileName) pair exists; for a schema-valid body with an untaken name
it succeeds, and the same profileName under two different accounts both
succeed. -/
theorem create_profile_uniqueness (ps : ProfileDb) (body body2 : CreateProfileBody) :
    ((∃ q ∈ ps, q.userId = body.userId ∧ q.profileName = body.profileName) →
      createProfile ps body = .error (.badRequest "Profile name already exists for this user")) ∧
    ((∀ q ∈ ps, ¬(q.userId = body.userId ∧ q.profileName = body.profileName)) →
      2 ≤ body.profileName.length →
      ∃ ps1 p1, createProfile ps body = .ok (ps1, p1)) ∧
    (body2.profileName = body.profileName → body2.userId ≠ body.userId →
      (∀ q ∈ ps, ¬(q.userId = body.userId ∧ q.profileName = body.profileName)) →
      (∀ q ∈ ps, ¬(q.userId = body2.userId ∧ q.profileName = body2.profileName)) →
      2 ≤ body.profileName.length →
      ∀ ps1 p1, createProfile ps body = .ok (ps1, p1) →
        ∃ ps2 p2, createProfile ps1 body2 = .ok (ps2, p2)) := by
  refine ⟨?_, ?_, ?_⟩
  · rintro ⟨q, hq, hqu, hqn⟩
    have htaken : isProfileNameTaken ps body.profileName body.userId none = true :=
      (taken_none_iff ps body.profileName body.userId).mpr ⟨q, hq, hqn, hqu⟩
    unfold createProfile
    rw [if_pos htaken]
  · intro hno hlen
    have hnot : isProfileNameTaken ps body.profileName body.userId none = false := by
      apply Bool.eq_false_iff.mpr
      intro htrue
      obtain ⟨q, hq, hqn, hqu⟩ := (taken_none_iff ps body.profileName body.userId).mp htrue
      exact hno q hq ⟨hqu, hqn⟩
    exact ⟨_, _, createProfile_succeeds hnot hlen⟩
  · intro hname hne hno1 hno2 hlen ps1 p1 hok1
    obtain ⟨-, -, -, hps1⟩ := createProfile_ok_spec hok1
    have hnot2 : isProfileNameTaken ps1 body2.profileName body2.userId none = false := by
      rw [hps1, taken_append, isProfileNameTaken_createDemoted]
      have hleft : isProfileNameTaken ps body2.profileName body2.userId none = false := by
        apply Bool.eq_false_iff.mpr
        intro htrue
        obtain ⟨q, hq, hqn, hqu⟩ := (taken_none_iff ps body2.profileName body2.userId).mp htrue
        exact hno2 q hq ⟨hqu, hqn⟩
      have hright : isProfileNameTaken [newProfileDoc ps body] body2.profileName
          body2.userId none = false := by
        apply Bool.eq_false_iff.mpr
        intro htrue
        obtain ⟨q, hq, hqn, hqu⟩ :=
          (taken_none_iff [newProfileDoc ps body] body2.profileName body2.userId).mp htrue
        have hqeq : q = newProfileDoc ps body := by simpa using hq
        apply hne
        rw [← hqu, hqeq]
        rfl
      rw [hleft, hright]
      rfl
    have hlen2 : 2 ≤ body2.profileName.length := by rw [hname]; exact hlen
    exact ⟨_, _, createProfile_succeeds hnot2 hlen2⟩

/-- Witness for C7: a duplicate name in the same account gets Conflict,
an untaken name succeeds, and the same name in two accounts both
succeed. -/
theorem create_profile_uniqueness_witness :
    (createProfile
      [{ id := 1, userId := 1, profileName := "dup", displayName := "dup",
         profileType := ProfileType.PUBLIC, status := ProfileStatus.PUBLIC,
         isActive := true, isDefault := true }]
      { userId := 1, profileName := "dup", displayName := "x",
        profileType := ProfileType.PUBLIC, status := ProfileStatus.PUBLIC,
        isActive := true, isDefault := false } =
      .error (.badRequest "Profile name already exists for this user")) ∧
    (∃ ps1 p1, createProfile
      [{ id := 1, userId := 1, profileName := "dup", displayName := "dup",
         profileType := ProfileType.PUBLIC, status := ProfileStatus.PUBLIC,
         isActive := true, isDefault := true }]
      { userId := 1, profileName := "fresh", displayName := "x",
        profileType := ProfileType.PUBLIC, status := ProfileStatus.PUBLIC,
        isActive := true, isDefault := false } = .ok (ps1, p1)) ∧
    (∃ ps2 p2, createProfile
      (createDemoted []
        { userId := 1, profileName := "same", displayName := "x",
          profileType := ProfileType.PUBLIC, status := ProfileStatus.PUBLIC,
          isActive := true, isDefault := false } ++
       [newProfileDoc []
        { userId := 1, profileName := "same", displayName := "x",
          profileType := ProfileType.PUBLIC, status := ProfileStatus.PUBLIC,
          isActive := true, isDefault := false }])
      { userId := 2, profileName := "same", displayName := "y",
        profileType := ProfileType.PUBLIC, status := ProfileStatus.PUBLIC,
        isActive := true, isDefault := false } = .ok (ps2, p2)) :=
  ⟨(create_profile_uniqueness
      [{ id := 1, userId := 1, profileName := "dup", displayName := "dup",
         profileType := ProfileType.PUBLIC, status := ProfileStatus.PUBLIC,
         isActive := true, isDefault := true }]
      { userId := 1, profileName := "dup", displayName := "x",
        profileType := ProfileType.PUBLIC, status := ProfileStatus.PUBLIC,
        isActive := true, isDefault := false }
      { userId := 1, profileName := "dup", displayName := "x",
        profileType := ProfileType.PUBLIC, status := ProfileStatus.PUBLIC,
        isActive := true, isDefault := false }).1 (by decide),
   (create_profile_uniqueness
      [{ id := 1, userId := 1, profileName := "dup", displayName := "dup",
         profileType := ProfileType.PUBLIC, status := ProfileStatus.PUBLIC,
         isActive := true, isDefault := true }]
      { userId := 1, profileName := "fresh", displayName := "x",
        profileType := ProfileType.PUBLIC, status := ProfileStatus.PUBLIC,
        isActive := true, isDefault := false }
      { userId := 1, profileName := "fresh", displayName := "x",
        profileType := ProfileType.PUBLIC, status := ProfileStatus.PUBLIC,
        isActive := true, isDefault := false }).2.1 (by decide) (by decide),
   (create_profile_uniqueness []
      { userId := 1, profileName := "same", displayName := "x",
        profileType := ProfileType.PUBLIC, status := ProfileStatus.PUBLIC,
        isActive := true, isDefault := false }
      { userId := 2, profileName := "same", displayName := "y",
        profileType := ProfileType.PUBLIC, status := ProfileStatus.PUBLIC,
        isActive := true, isDefault := false }).2.2 (by decide) (by decide)
      (by decide) (by decide) (by decide) _ _ rfl⟩

theorem taken_eq_false_of_no_user {ps : ProfileDb} {u : Nat}
    (h : ∀ p ∈ ps, p.userId ≠ u) (n : String) (e : Option Nat) :
    isProfileNameTaken ps n u e = false := by
  apply Bool.eq_false_iff.mpr
  intro htrue
  unfold isProfileNameTaken at htrue
  rw [List.any_eq_true] at htrue
  obtain ⟨p, hp, hpred⟩ := htrue
  simp only [Bool.and_eq_true, beq_iff_eq] at hpred
  exact h p hp hpred.1.2

theorem demoteOthers_eq_self {ps : ProfileDb} {u s : Nat}
    (h : ∀ p ∈ ps, p.userId ≠ u) : demoteOthers ps u s = ps := by
  unfold demoteOthers
  have hpt : ∀ p ∈ ps,
      (if p.userId = u ∧ p.id ≠ s then { p with isDefault := false } else p) = p := by
    intro p hp
    rw [if_neg (fun hc => h p hp hc.1)]
  calc ps.map (fun p => if p.userId = u ∧ p.id ≠ s then { p with isDefault := false } else p)
      = ps.map id := List.map_congr_left hpt
    _ = ps := List.map_id ps

/-- C8 (amended): on successful account creation, createUser attempts
the public bootstrap profile first and the anonymous one only when the
public creation succeeded; any profile-creation failure is swallowed and
the created account is returned regardless.  When the display name is
schema-valid and the generated anonymous name does not collide with it,
exactly the two described profiles are created (public: named after the
account, kind PUBLIC, status PUBLIC, default; anonymous: generated name,
kind ANONYMOUS, status PRIVATE, not default); when the display name
fails schema validation only one creation is attempted and the account
ends with zero profiles.  The generated suffix is a 6-digit number. -/
theorem createUser_bootstrap (s : SysState) (body : CreateUserBody) (rand : Nat)
    (hemail : isEmailTaken s.users body.email = false)
    (husername : isUsernameTaken s.users body.username = false)
    (hfresh : ∀ p ∈ s.profiles, p.userId ≠ freshUserId s.users) :
    (∃ s' n, createUser s body rand = .ok (s', newUserDoc s body, n)) ∧
    (body.name.length < 2 →
      createUser s body rand =
        .ok ({ users := s.users ++ [newUserDoc s body], profiles := s.profiles },
             newUserDoc s body, 1)) ∧
    (2 ≤ body.name.length → generateAnonymousProfileName rand ≠ body.name →
      ∃ s' pubP anonP, createUser s body rand = .ok (s', newUserDoc s body, 2) ∧
        s'.profiles.filter (fun p => p.userId == freshUserId s.users) = [pubP, anonP] ∧
        pubP.profileName = body.name ∧ pubP.displayName = body.name ∧
        pubP.profileType = .PUBLIC ∧ pubP.status = .PUBLIC ∧ pubP.isDefault = true ∧
        anonP.profileName = generateAnonymousProfileName rand ∧
        anonP.displayName = "Anonymous User" ∧ anonP.profileType = .ANONYMOUS ∧
        anonP.status = .PRIVATE ∧ anonP.isDefault = false) ∧
    (100000 ≤ 100000 + rand % 900000 ∧ 100000 + rand % 900000 < 1000000) := by
  have hifemail : ¬isEmailTaken s.users body.email = true := by
    rw [hemail]
    exact Bool.false_ne_true
  have hifuser : ¬isUsernameTaken s.users body.username = true := by
    rw [husername]
    exact Bool.false_ne_true
  refine ⟨?_, ?_, ?_, by omega, by omega⟩
  · cases h1 : createProfile s.profiles (pubProfileBody s body) with
    | error e =>
      have hrun1 : createUser s body rand =
          .ok ({ users := s.users ++ [newUserDoc s body], profiles := s.profiles },
               newUserDoc s body, 1) := by
        unfold createUser
        rw [if_neg hifemail, if_neg hifuser]
        simp only [h1]
      exact ⟨_, _, hrun1⟩
    | ok pr =>
      obtain ⟨ps1, pd⟩ := pr
      cases h2 : createProfile ps1 (anonProfileBody s rand) with
      | error e =>
        have hrun1 : createUser s body rand =
            .ok ({ users := s.users ++ [newUserDoc s body], profiles := ps1 },
                 newUserDoc s body, 2) := by
          unfold createUser
          rw [if_neg hifemail, if_neg hifuser]
          simp only [h1, h2]
        exact ⟨_, _, hrun1⟩
      | ok pr2 =>
        obtain ⟨ps2, ad⟩ := pr2
        have hrun1 : createUser s body rand =
            .ok ({ users := s.users ++ [newUserDoc s body], profiles := ps2 },
                 newUserDoc s body, 2) := by
          unfold createUser
          rw [if_neg hifemail, if_neg hifuser]
          simp only [h1, h2]
        exact ⟨_, _, hrun1⟩
  · intro hshort
    have hp1err : createProfile s.profiles (pubProfileBody s body) =
        .error (.validationError "Profile name must be at least 2 characters long") := by
      unfold createProfile
      have h0 : isProfileNameTaken s.profiles (pubProfileBody s body).profileName
          (pubProfileBody s body).userId none = false := taken_eq_false_of_no_user hfresh _ _
      rw [if_neg (show ¬isProfileNameTaken s.profiles (pubProfileBody s body).profileName
          (pubProfileBody s body).userId none = true by
        rw [h0]
        exact Bool.false_ne_true)]
      rw [if_pos (show (pubProfileBody s body).profileName.length < 2 from hshort)]
    unfold createUser
    rw [if_neg hifemail, if_neg hifuser]
    simp only [hp1err]
  · intro hlen hanon
    have hq1not : isProfileNameTaken s.profiles (pubProfileBody s body).profileName
        (pubProfileBody s body).userId none = false := taken_eq_false_of_no_user hfresh _ _
    have hp1 := createProfile_succeeds hq1not
      (show 2 ≤ (pubProfileBody s body).profileName.length from hlen)
    have hd1 : createIsDefault s.profiles (pubProfileBody s body) = true := by
      unfold createIsDefault
      exact Bool.or_true _
    have hcd1 : createDemoted s.profiles (pubProfileBody s body) = s.profiles := by
      unfold createDemoted
      rw [if_pos hd1]
      exact demoteOthers_eq_self hfresh
    rw [hcd1] at hp1
    have hq2not : isProfileNameTaken
        (s.profiles ++ [newProfileDoc s.profiles (pubProfileBody s body)])
        (anonProfileBody s rand).profileName (anonProfileBody s rand).userId none = false := by
      rw [taken_append]
      have hleft : isProfileNameTaken s.profiles (anonProfileBody s rand).profileName
          (anonProfileBody s rand).userId none = false := taken_eq_false_of_no_user hfresh _ _
      have hright : isProfileNameTaken [newProfileDoc s.profiles (pubProfileBody s body)]
          (anonProfileBody s rand).profileName (anonProfileBody s rand).userId none = false := by
        apply Bool.eq_false_iff.mpr
        intro htrue
        obtain ⟨q, hq, hqn, _⟩ := (taken_none_iff _ _ _).mp htrue
        have hqeq : q = newProfileDoc s.profiles (pubProfileBody s body) := by simpa using hq
        apply hanon
        have hqn2 : q.profileName = generateAnonymousProfileName rand := hqn
        rw [hqeq] at hqn2
        exact hqn2.symm
      rw [hleft, hright]
      rfl
    have hlen2 : 2 ≤ (anonProfileBody s rand).profileName.length := by
      show 2 ≤ (generateAnonymousProfileName rand).length
      unfold generateAnonymousProfileName
      rw [String.length_append]
      have h5 : ("Neswa" : String).length = 5 := by decide
      omega
    have hp2 := createProfile_succeeds hq2not hlen2
    have hd2 : createIsDefault
        (s.profiles ++ [newProfileDoc s.profiles (pubProfileBody s body)])
        (anonProfileBody s rand) = false := by
      unfold createIsDefault
      apply Bool.or_eq_false_iff.mpr
      refine ⟨?_, rfl⟩
      apply Bool.eq_false_iff.mpr
      intro htrue
      have hnil := List.isEmpty_iff.mp htrue
      have hpubmem : newProfileDoc s.profiles (pubProfileBody s body) ∈
          (s.profiles ++ [newProfileDoc s.profiles (pubProfileBody s body)]).filter
            (fun p => p.userId == (anonProfileBody s rand).userId) := by
        apply List.mem_filter.mpr
        exact ⟨List.mem_append_right _ (List.mem_singleton.mpr rfl),
          by simp [newProfileDoc, pubProfileBody, anonProfileBody]⟩
      rw [hnil] at hpubmem
      cases hpubmem
    have hcd2 : createDemoted
        (s.profiles ++ [newProfileDoc s.profiles (pubProfileBody s body)])
        (anonProfileBody s rand) =
        s.profiles ++ [newProfileDoc s.profiles (pubProfileBody s body)] := by
      unfold createDemoted
      rw [if_neg (by rw [hd2]; exact Bool.false_ne_true)]
    rw [hcd2] at hp2
    have hrun : createUser s body rand =
        .ok ({ users := s.users ++ [newUserDoc s body],
               profiles := (s.profiles ++ [newProfileDoc s.profiles (pubProfileBody s body)]) ++
                 [newProfileDoc
                   (s.profiles ++ [newProfileDoc s.profiles (pubProfileBody s body)])
                   (anonProfileBody s rand)] },
             newUserDoc s body, 2) := by
      unfold createUser
      rw [if_neg hifemail, if_neg hifuser]
      simp only [hp1, hp2]
    refine ⟨_, newProfileDoc s.profiles (pubProfileBody s body),
      newProfileDoc (s.profiles ++ [newProfileDoc s.profiles (pubProfileBody s body)])
        (anonProfileBody s rand), hrun, ?_, rfl, rfl, rfl, rfl, ?_, rfl, rfl, rfl, rfl, ?_⟩
    · show ((s.profiles ++ [newProfileDoc s.profiles (pubProfileBody s body)]) ++
          [newProfileDoc (s.profiles ++ [newProfileDoc s.profiles (pubProfileBody s body)])
            (anonProfileBody s rand)]).filter (fun p => p.userId == freshUserId s.users) = _
      rw [List.filter_append, List.filter_append]
      have h0 : s.profiles.filter (fun p => p.userId == freshUserId s.users) = [] := by
        rw [List.filter_eq_nil_iff]
        intro p hp
        simp [hfresh p hp]
      rw [h0]
      have hpub : ([newProfileDoc s.profiles (pubProfileBody s body)]).filter
          (fun p => p.userId == freshUserId s.users) =
          [newProfileDoc s.profiles (pubProfileBody s body)] := by
        simp [newProfileDoc, pubProfileBody]
      have hanon2 : ([newProfileDoc
          (s.profiles ++ [newProfileDoc s.profiles (pubProfileBody s body)])
          (anonProfileBody s rand)]).filter (fun p => p.userId == freshUserId s.users) =
          [newProfileDoc (s.profiles ++ [newProfileDoc s.profiles (pubProfileBody s body)])
            (anonProfileBody s rand)] := by
        simp [newProfileDoc, anonProfileBody]
      rw [hpub, hanon2]
      rfl
    · show (newProfileDoc s.profiles (pubProfileBody s body)).isDefault = true
      exact hd1
    · show (newProfileDoc
        (s.profiles ++ [newProfileDoc s.profiles (pubProfileBody s body)])
        (anonProfileBody s rand)).isDefault = false
      exact hd2

/-- Witness for C8 (amended): an empty store, a valid display name and a
non-colliding random draw produce exactly the public and anonymous
profiles. -/
theorem createUser_bootstrap_witness :
    (∃ s' n, createUser { users := [], profiles := [] }
      { name := "Ana", username := "ana", email := "ana@b.c" } 42 =
      .ok (s', newUserDoc { users := [], profiles := [] }
        { name := "Ana", username := "ana", email := "ana@b.c" }, n)) ∧
    (∃ s' pubP anonP, createUser { users := [], profiles := [] }
      { name := "Ana", username := "ana", email := "ana@b.c" } 42 =
      .ok (s', newUserDoc { users := [], profiles := [] }
        { name := "Ana", username := "ana", email := "ana@b.c" }, 2) ∧
      s'.profiles.filter (fun p => p.userId == freshUserId []) = [pubP, anonP] ∧
      pubP.profileName = "Ana" ∧ pubP.displayName = "Ana" ∧
      pubP.profileType = .PUBLIC ∧ pubP.status = .PUBLIC ∧ pubP.isDefault = true ∧
      anonP.profileName = generateAnonymousProfileName 42 ∧
      anonP.displayName = "Anonymous User" ∧ anonP.profileType = .ANONYMOUS ∧
      anonP.status = .PRIVATE ∧ anonP.isDefault = false) :=
  ⟨(createUser_bootstrap { users := [], profiles := [] }
      { name := "Ana", username := "ana", email := "ana@b.c" } 42
      (by decide) (by decide) (by decide)).1,
   (createUser_bootstrap { users := [], profiles := [] }
      { name := "Ana", username := "ana", email := "ana@b.c" } 42
      (by decide) (by decide) (by decide)).2.2.1 (by decide) (by decide)⟩

/-- Counterexample for C8 as stated: a one-character display name passes
account creation but fails profile schema validation, so only one
profile creation is attempted — not two — and the anonymous profile,
which would have succeeded, is never tried: the account ends with zero
profiles while createUser still returns the user. -/
theorem createUser_attempts_counterexample :
    createUser { users := [], profiles := [] }
      { name := "A", username := "al", email := "a@b.c" } 0 =
      .ok ({ users := [{ id := 1, name := "A", username := "al", email := "a@b.c" }],
             profiles := [] },
           { id := 1, name := "A", username := "al", email := "a@b.c" }, 1) ∧
    (1 : Nat) ≠ 2 :=
  ⟨rfl, by decide⟩

end AuthSvc
